import Mathlib

set_option linter.unusedVariables false

/- The library seals core rational arithmetic against definitional unfolding;
the concrete witness runs below evaluate generator states by decide, which
needs these operations to reduce. -/
set_option allowUnsafeReducibility true in
attribute [semireducible] Rat.mul Rat.div Rat.add Rat.sub Rat.neg Rat.blt
  Rat.normalize Rat.inv Rat.ofScientific mkRat

/-
Verification of the meridian-bank synthetic data generation pipeline and its
query tools, as a shallow embedding in Lean 4.

Sources embedded:
  src/generators/generate_accounts.py      (accounts stage, orphan injection)
  src/generators/generate_transactions.py  (transactions stage, amount pipeline,
                                            zero-amount injection)
  src/generators/generate_customers.py     (customers stage)
  src/generators/generate_gl_entries.py    (GL journal generation, imbalance batch)
  src/generators/utils/relationships.py    (IDRegistry)
  src/generators/utils/faker_extensions.py (sort codes, account numbers, NI numbers,
                                            counterparties)
  src/agent/tools.py                       (execute_sql_query read-only gate)

Modelling conventions:
  - numpy pseudo-random generators are modelled as an abstract deterministic
    stream of draws (structure Rng below): each draw reads the stream at the
    current position and advances the position.  Quantifying over all streams
    quantifies over all possible sequences of random draws.  A lognormal draw
    is always nonnegative (it is exp of a real in the source distribution), so
    the lognormal stream carries nonnegativity in its type.
  - Python floats are modelled as rationals; Python round uses round-half-to-even,
    modelled exactly by pyRound below.
  - Dates are modelled as integer day numbers (days since 2015-01-01) in the
    generators, except GL entries where the source formats dates as YYYYMMDD
    strings for batch ids; there a date is the YYYYMMDD number.
  - Database values fetched by cursors are modelled by the PyVal type so that
    heterogeneous comparisons (int vs str) have Python semantics.
  - f-string ids such as JNL-00000042 are injective images of their counters for
    the counter ranges reached by the generators; they are modelled by the
    counters themselves where noted.
-/

/-- Model of a numpy random Generator: an abstract deterministic stream of
draws.  Each kind of draw reads its stream at the current position and bumps
the position.  The lognormal stream is nonnegative by type, since numpy
lognormal draws are exponentials. -/
structure Rng where
  uni : Nat → ℚ
  logn : Nat → {q : ℚ // 0 ≤ q}
  nrm : Nat → ℚ
  idx : Nat → Nat
  txt : Nat → String
  pos : Nat

/-- Advance the stream position after a draw. -/
def Rng.bump (r : Rng) : Rng :=
  { r with pos := r.pos + 1 }

/-- Model of rng.random(): one uniform draw. -/
def Rng.random (r : Rng) : ℚ × Rng :=
  (r.uni r.pos, r.bump)

/-- Model of rng.lognormal(mean, sigma): one nonnegative draw.  The parameters
only shape the distribution, which the nondeterministic stream abstracts. -/
def Rng.lognormal (mean sigma : ℚ) (r : Rng) : ℚ × Rng :=
  ((r.logn r.pos).val, r.bump)

/-- Model of rng.normal(mean, sigma): one draw. -/
def Rng.normal (mean sigma : ℚ) (r : Rng) : ℚ × Rng :=
  (r.nrm r.pos, r.bump)

/-- Model of rng.integers(lo, hi): one integer draw in [lo, hi). -/
def Rng.integers (lo hi : ℤ) (r : Rng) : ℤ × Rng :=
  (lo + (r.idx r.pos : ℤ) % (hi - lo), r.bump)

/-- Model of rng.poisson(lam): one natural number draw. -/
def Rng.poisson (lam : ℚ) (r : Rng) : Nat × Rng :=
  (r.idx r.pos, r.bump)

/-- Model of rng.choice(l) (also of the weighted form with all-positive
weights): draws one element of l; the default d is returned only for empty l,
where the source would raise. -/
def Rng.choice {α : Type} (l : List α) (d : α) (r : Rng) : α × Rng :=
  (l.getD (r.idx r.pos % l.length) d, r.bump)

/-- Model of rng.choice(l, size := n): n successive draws from l. -/
def Rng.choiceN {α : Type} (l : List α) (d : α) : Nat → Rng → List α × Rng
  | 0, r => ([], r)
  | n + 1, r =>
    let (x, r1) := Rng.choice l d r
    let (xs, r2) := Rng.choiceN l d n r1
    (x :: xs, r2)

/-- Model of a faker call: one string draw from the text stream.  The faker
library keeps its own seeded stream; its draws never influence control flow,
so they are absorbed into the same oracle. -/
def Rng.text (r : Rng) : String × Rng :=
  (r.txt r.pos, r.bump)

/-- Python round(q) : round half to even (bankers rounding). -/
def pyRound (q : ℚ) : ℤ :=
  let f := q.floor
  let frac := q - f
  if frac < 1 / 2 then f
  else if 1 / 2 < frac then f + 1
  else if f % 2 = 0 then f else f + 1

/-- Python round(q, 2): round to two decimal places, half to even. -/
def round2 (q : ℚ) : ℚ :=
  (pyRound (q * 100) : ℚ) / 100

/-- Python int(q): truncation toward zero. -/
def pyInt (q : ℚ) : ℤ :=
  if 0 ≤ q then q.floor else -((-q).floor)

/-- Left-pad the decimal representation of n with zeros to 8 digits: models
the Python format specifier 08d. -/
def zfill8 (n : ℤ) : String :=
  let s := toString n
  String.mk (List.replicate (8 - s.length) '0') ++ s

/-- Python str.title() on a list of characters: uppercase each letter that
starts a word (previous character not a letter), lowercase the rest. -/
def pyTitleAux : Bool → List Char → List Char
  | _, [] => []
  | prevAlpha, c :: cs =>
    (if c.isAlpha then (if prevAlpha then c.toLower else c.toUpper) else c) ::
      pyTitleAux c.isAlpha cs

/-- Python txn_type.replace(underscore, space).title(), used for descriptions. -/
def titleWords (s : String) : String :=
  String.mk (pyTitleAux false (s.data.map (fun c => if c = '_' then ' ' else c)))

/-- numpy arr.max() on the model id lists; the source raises on an empty
array, the model returns 0 there (never relied upon for nonempty lists). -/
def npMax : List ℤ → ℤ
  | [] => 0
  | x :: xs => xs.foldl max x

/-- Fold a step function over a list, threading state: the shape of the
Python for-loops that never fail. -/
def foldSteps {α σ : Type} (f : α → σ → σ) : List α → σ → σ
  | [], st => st
  | a :: l, st => foldSteps f l (f a st)

/-- Fold a fallible step function over a list, threading state: the shape of
the Python for-loops containing the account-number uniqueness retry. -/
def foldStepsOpt {α σ : Type} (f : α → σ → Option σ) : List α → σ → Option σ
  | [], st => some st
  | a :: l, st => (f a st).bind (foldStepsOpt f l)

/- ════════════════════════════════════════════════════════════════════
   IDRegistry (src/generators/utils/relationships.py, lines 54-92)
   ════════════════════════════════════════════════════════════════════ -/

/-- The structured content of the KeyError message raised by
IDRegistry.get_ids: it names the requested entity type and lists the
currently registered types. -/
structure RegistryKeyError where
  requested : String
  available : List String
deriving DecidableEq, Repr

/-- IDRegistry: central registry of generated IDs for cross-generator
foreign-key lookups.  The Python dict self._store is an insertion-ordered
association list. -/
structure IDRegistry where
  store : List (String × List ℤ)
deriving DecidableEq

/-- IDRegistry(): the store starts empty. -/
def IDRegistry.empty : IDRegistry :=
  ⟨[]⟩

/-- list(self._store.keys()). -/
def IDRegistry.keys (r : IDRegistry) : List String :=
  r.store.map (·.1)

/-- self._store.get(entity_type): first binding for the key, if any. -/
def IDRegistry.lookup (r : IDRegistry) (entity_type : String) : Option (List ℤ) :=
  (r.store.find? (fun p => p.1 = entity_type)).map (·.2)

/-- register(entity_type, ids): store the id list for an entity type;
a Python dict assignment overwrites in place, keeping the key position,
and appends a fresh key at the end. -/
def IDRegistry.register (r : IDRegistry) (entity_type : String) (ids : List ℤ) :
    IDRegistry :=
  if r.keys.contains entity_type then
    ⟨r.store.map (fun p => if p.1 = entity_type then (entity_type, ids) else p)⟩
  else
    ⟨r.store ++ [(entity_type, ids)]⟩

/-- get_ids(entity_type): the stored id list, or a KeyError naming the
requested type and listing the available types. -/
def IDRegistry.get_ids (r : IDRegistry) (entity_type : String) :
    Except RegistryKeyError (List ℤ) :=
  match r.lookup entity_type with
  | none => Except.error ⟨entity_type, r.keys⟩
  | some ids => Except.ok ids

/- ════════════════════════════════════════════════════════════════════
   Fetched database values (cursor rows) with Python comparison semantics
   ════════════════════════════════════════════════════════════════════ -/

/-- A scalar value in a fetched database row. -/
inductive PyVal where
  | int (n : ℤ)
  | float (q : ℚ)
  | str (s : String)
  | boolean (b : Bool)
  | date (d : ℤ)
  | none_
deriving DecidableEq, Repr

/-- Python equality on fetched scalars: int and float compare numerically,
values of unrelated types are unequal.  (The bool-int overlap of Python is
not modelled; no embedded code compares a bool to an int.) -/
def pyEq : PyVal → PyVal → Bool
  | PyVal.int a, PyVal.int b => a == b
  | PyVal.int a, PyVal.float q => (a : ℚ) == q
  | PyVal.float q, PyVal.int a => q == (a : ℚ)
  | PyVal.float a, PyVal.float b => a == b
  | PyVal.str a, PyVal.str b => a == b
  | PyVal.boolean a, PyVal.boolean b => a == b
  | PyVal.date a, PyVal.date b => a == b
  | PyVal.none_, PyVal.none_ => true
  | _, _ => false

/-- Python membership test v in l, by pyEq. -/
def pyIn (v : PyVal) (l : List PyVal) : Bool :=
  l.any (pyEq v)

/- ════════════════════════════════════════════════════════════════════
   Accounts stage registration (src/generators/generate_accounts.py, 152-166)
   The fetched rows are SELECT account_id, customer_id, product_id, status.
   ════════════════════════════════════════════════════════════════════ -/

/-- Line 159: active_ids = [r[0] for r in rows if r[1] in [str active,
str in_arrears]].  Note the filter reads index 1 (customer_id), as the
source does. -/
def activeIdsFrom (rows : List (List PyVal)) : List PyVal :=
  (rows.filter (fun r => pyIn (r.getD 1 PyVal.none_)
    [PyVal.str "active", PyVal.str "in_arrears"])).map (fun r => r.getD 0 PyVal.none_)

/-- The set the claim describes: account ids (index 0) of rows whose status
(index 3) is active or in_arrears.  Stated from the claim wording, for
comparison with activeIdsFrom. -/
def claimedActiveIdsFrom (rows : List (List PyVal)) : List PyVal :=
  (rows.filter (fun r => pyIn (r.getD 3 PyVal.none_)
    [PyVal.str "active", PyVal.str "in_arrears"])).map (fun r => r.getD 0 PyVal.none_)

/-- A well-typed fetched accounts row: account_id, customer_id, product_id
are ints and status is a string, as the accounts table schema dictates. -/
def accountsRowTyped (r : List PyVal) : Prop :=
  (∃ n, r.getD 0 PyVal.none_ = PyVal.int n) ∧
  (∃ n, r.getD 1 PyVal.none_ = PyVal.int n) ∧
  (∃ n, r.getD 2 PyVal.none_ = PyVal.int n) ∧
  (∃ s, r.getD 3 PyVal.none_ = PyVal.str s)

/-- The single fetched row used as the failing input for the registration
bug: account 1, customer 42, product 7, status active. -/
def accountsRowsExample : List (List PyVal) :=
  [[PyVal.int 1, PyVal.int 42, PyVal.int 7, PyVal.str "active"]]

/- ════════════════════════════════════════════════════════════════════
   SQL query tool (src/agent/tools.py, execute_sql_query, lines 110-147)
   ════════════════════════════════════════════════════════════════════ -/

/-- Python str.strip() whitespace (ASCII). -/
def isPySpace (c : Char) : Bool :=
  c = ' ' || c = '\t' || c = '\n' || c = '\r' || c = '\x0b' || c = '\x0c'

/-- Python query.strip() on the character list of the query. -/
def pyStrip (s : List Char) : List Char :=
  ((s.dropWhile isPySpace).reverse.dropWhile isPySpace).reverse

/-- Python str.upper() (the embedded queries are ASCII). -/
def pyUpper (s : List Char) : List Char :=
  s.map Char.toUpper

/-- A regex word character for the word boundary of a backslash-b pattern:
[A-Za-z0-9_] on the uppercased query. -/
def isWordChar (c : Char) : Bool :=
  c.isAlphanum || c = '_'

/-- The keyword kw occurs at the head of s with word boundaries on both
sides; prev is the character just before s in the full text, if any. -/
def wordAtHead (kw s : List Char) (prev : Option Char) : Bool :=
  kw.isPrefixOf s &&
    (match prev with
     | none => true
     | some c => !isWordChar c) &&
    (match s.drop kw.length with
     | [] => true
     | c :: _ => !isWordChar c)

/-- re.search of backslash-b kw backslash-b in the text whose remaining
suffix is s and whose preceding character is prev. -/
def containsWordFrom (kw : List Char) : List Char → Option Char → Bool
  | [], prev => wordAtHead kw [] prev
  | c :: rest, prev => wordAtHead kw (c :: rest) prev || containsWordFrom kw rest (some c)

/-- re.search of kw as a whole word anywhere in text. -/
def containsWord (kw text : List Char) : Bool :=
  containsWordFrom kw text none

/-- The forbidden-keyword list of execute_sql_query, in source order. -/
def dangerous : List String :=
  ["INSERT", "UPDATE", "DELETE", "DROP", "ALTER", "TRUNCATE", "CREATE"]

/-- query.strip().upper() as a character list (line 113). -/
def strippedUpper (query : String) : List Char :=
  pyUpper (pyStrip query.data)

/-- Stringify non-serializable fetched values: temporal values via isoformat,
bytes and other objects via str; primitives pass through (lines 131-138).
The stringification of a modelled value is a fixed tag plus its repr. -/
def pyConvert : PyVal → PyVal
  | PyVal.date d => PyVal.str ("date:" ++ toString d)
  | PyVal.int n => PyVal.int n
  | PyVal.float q => PyVal.float q
  | PyVal.str s => PyVal.str s
  | PyVal.boolean b => PyVal.boolean b
  | PyVal.none_ => PyVal.none_

/-- The value returned by execute_sql_query: either a structured error or
the columns, rows, row_count and truncated fields. -/
inductive SqlResult where
  | error (msg : String)
  | ok (columns : List String) (rows : List (List PyVal)) (row_count : Nat)
      (truncated : Bool)
deriving DecidableEq

/-- execute_sql_query(query).  The database engine is the explicit parameter
exec, mapping a database state and a query to the full result set (columns
and all rows) and the successor state; the tool consults it only after the
read-only gate passes, and fetches at most 500 rows from the result. -/
def execute_sql_query {DB : Type} (exec : DB → String → (List String × List (List PyVal)) × DB)
    (db : DB) (query : String) : SqlResult × DB :=
  match ("SELECT".data.isPrefixOf (strippedUpper query) ||
      "WITH".data.isPrefixOf (strippedUpper query) : Bool) with
  | false => (SqlResult.error "Only SELECT queries are permitted.", db)
  | true =>
    match dangerous.find? (fun kw => containsWord kw.data (strippedUpper query)) with
    | some kw => (SqlResult.error ("Query contains forbidden keyword: " ++ kw), db)
    | none =>
      let eR := exec db query
      let columns := eR.1.1
      let allRows := eR.1.2
      let db1 := eR.2
      let rows := (allRows.take 500).map (fun row => row.map pyConvert)
      let total := rows.length
      (SqlResult.ok columns rows total (decide (500 ≤ total)), db1)

/-- The gate condition of claim C7: the stripped upper-cased query does not
start with SELECT or WITH, or contains a forbidden keyword as a whole word. -/
def sqlGateBlocked (query : String) : Bool :=
  !("SELECT".data.isPrefixOf (strippedUpper query) ||
      "WITH".data.isPrefixOf (strippedUpper query)) ||
    dangerous.any (fun kw => containsWord kw.data (strippedUpper query))

/-- A concrete engine for witnesses: a database state is an association of
table names to row lists; every query returns every row of every table and
leaves the state unchanged. -/
def execAllRows (db : List (String × List (List PyVal))) (query : String) :
    (List String × List (List PyVal)) × List (String × List (List PyVal)) :=
  ((["c"], db.flatMap (·.2)), db)

/-- A concrete engine whose every result set has exactly 500 rows. -/
def exec500 (db : Unit) (query : String) :
    (List String × List (List PyVal)) × Unit :=
  ((["c"], List.replicate 500 [PyVal.int 1]), db)

/- ════════════════════════════════════════════════════════════════════
   Dates as integer day numbers (days since 2015-01-01)
   ════════════════════════════════════════════════════════════════════ -/

/-- date(2015, 1, 1). -/
def d20150101 : ℤ := 0

/-- date(2024, 7, 1). -/
def d20240701 : ℤ := 3469

/-- date(2024, 12, 31), the clamp ceiling for onboarding and opening dates. -/
def d20241231 : ℤ := 3652

/-- date(2023, 6, 15), the fixed opening date of orphaned accounts. -/
def d20230615 : ℤ := 3087

/- ════════════════════════════════════════════════════════════════════
   faker_extensions (src/generators/utils/faker_extensions.py)
   ════════════════════════════════════════════════════════════════════ -/

/-- The fictional Meridian sort code pool. -/
def MERIDIAN_SORT_CODES : List String :=
  ["200100", "200101", "200102", "200103", "200104",
   "200200", "200201",
   "200300", "200301",
   "200400",
   "200500",
   "200600",
   "200700",
   "200800"]

/-- generate_sort_code(rng): one choice from the sort code pool. -/
def generate_sort_code (rng : Rng) : String × Rng :=
  Rng.choice MERIDIAN_SORT_CODES "" rng

/-- generate_account_number(rng): the decimal representation of one draw in
[10000000, 99999999). -/
def generate_account_number (rng : Rng) : String × Rng :=
  let (n, rng1) := rng.integers 10000000 99999999
  (toString n, rng1)

/-- generate_ni_number(rng): two prefix letters, six digits, one suffix letter. -/
def generate_ni_number (rng : Rng) : String × Rng :=
  let prefixLetters := "ABCEGHJKLMNPRSTWXYZ".data
  let suffixLetters := "ABCD".data
  let (p1, rng1) := rng.choice prefixLetters 'A'
  let (p2, rng2) := rng1.choice prefixLetters 'A'
  let (digits, rng3) := rng2.integers 100000 999999
  let (suffix, rng4) := rng3.choice suffixLetters 'A'
  (String.mk [p1, p2] ++ toString digits ++ String.mk [suffix], rng4)

/-- The retail counterparty pool (apostrophe written as an escape). -/
def RETAIL_COUNTERPARTIES : List String :=
  ["Tesco Stores", "Sainsbury\x27s", "ASDA", "Morrisons", "Aldi", "Lidl",
   "Marks & Spencer", "Waitrose", "Co-op Food",
   "Amazon.co.uk", "ASOS.com", "John Lewis", "Argos", "Currys",
   "Shell", "BP", "Esso", "Texaco",
   "Costa Coffee", "Starbucks", "Greggs", "Pret A Manger", "Nandos",
   "Deliveroo", "Just Eat", "Uber Eats",
   "Netflix", "Spotify", "Apple", "Google",
   "Sky", "BT", "Virgin Media", "EE", "Three", "Vodafone",
   "British Gas", "EDF Energy", "SSE", "Octopus Energy",
   "Thames Water", "Severn Trent", "United Utilities",
   "Council Tax", "HMRC", "DVLA",
   "Aviva", "Direct Line", "Admiral", "AA",
   "PureGym", "David Lloyd", "Gymshark",
   "TfL", "Trainline", "National Rail",
   "NHS", "Boots Pharmacy"]

/-- The business counterparty pool. -/
def BUSINESS_COUNTERPARTIES : List String :=
  ["HMRC VAT", "HMRC Corporation Tax", "HMRC PAYE",
   "Companies House", "Business Rates",
   "AWS", "Microsoft Azure", "Google Cloud",
   "Royal Mail", "DHL", "FedEx",
   "Sage Accounting", "Xero", "QuickBooks",
   "Barclaycard Merchant", "Worldpay", "Stripe"]

/-- The salary payer pool. -/
def SALARY_PAYERS : List String :=
  ["Meridian Bank Payroll", "Tesco PLC Payroll", "NHS Trust Payroll",
   "Barclays Payroll", "BT Group Payroll", "Unilever Payroll",
   "GSK Payroll", "Rolls Royce Payroll", "BAE Systems Payroll",
   "Lloyds Banking Payroll", "JCB Payroll", "Astra Zeneca Payroll",
   "Royal Mail Payroll", "Network Rail Payroll", "BBC Payroll"]

/-- get_counterparty(txn_type, is_business, rng). -/
def get_counterparty (txn_type : String) (is_business : Bool) (rng : Rng) :
    String × Rng :=
  if txn_type = "salary" then rng.choice SALARY_PAYERS ""
  else if is_business then
    rng.choice (BUSINESS_COUNTERPARTIES ++ RETAIL_COUNTERPARTIES.take 10) ""
  else rng.choice RETAIL_COUNTERPARTIES ""

/- ════════════════════════════════════════════════════════════════════
   Customers stage (src/generators/generate_customers.py, generate_customers)
   ════════════════════════════════════════════════════════════════════ -/

/-- One customer master record as appended by generate_customers; dates are
day numbers, nullable columns are options. -/
structure CustomerRecord where
  customer_ref : String
  type : String
  title : Option String
  first_name : Option String
  last_name : Option String
  full_name : String
  date_of_birth : Option ℤ
  gender : Option String
  nationality : Option String
  ni_number : Option String
  email : String
  phone_mobile : String
  phone_home : Option String
  company_name : Option String
  company_reg_number : Option String
  sic_code : Option String
  kyc_status : String
  kyc_verified_date : Option ℤ
  risk_rating : String
  customer_segment : String
  is_active : Bool
  onboarded_date : ℤ
  closed_date : Option ℤ
deriving DecidableEq

/-- The five age brackets (inclusive bounds) of the personal loop. -/
def age_ranges : List (ℤ × ℤ) :=
  [(18, 25), (26, 35), (36, 50), (51, 65), (66, 85)]

/-- KYC status pool (weighted by repetition in the source). -/
def kyc_statuses : List String :=
  ["verified", "verified", "verified", "verified", "verified",
   "verified", "verified", "enhanced_due_diligence", "pending", "expired"]

/-- Risk rating pool. -/
def risk_ratings : List String :=
  ["low", "standard", "medium", "high", "pep", "sanctioned"]

/-- Personal customer segments. -/
def personal_segments : List String :=
  ["mass_market", "mass_affluent", "high_net_worth",
   "young_professional", "student", "retired"]

/-- Business customer segments. -/
def business_segments : List String :=
  ["small_business", "growing_business"]

/-- SIC code pool for business customers. -/
def sic_codes : List String :=
  ["62020", "47110", "56101", "41201", "69201", "86210",
   "96020", "55100", "49410", "01110", "74909", "82990"]

/-- The nationality pool drawn when the 15 percent branch fires. -/
def nationality_pool : List String :=
  ["Irish", "Polish", "Indian", "Pakistani", "Nigerian", "Romanian",
   "Italian", "Portuguese", "French", "German"]

/-- The body of the personal-customer loop (generate_customers, lines 51-108)
for loop index i, with every random draw in source order.  The age-bracket
and category weights only shape distributions, which the stream abstracts. -/
def personalCustomer (i : Nat) (rng : Rng) : CustomerRecord × Rng :=
  let (bIdx, rng1) := rng.choice (List.range age_ranges.length) 0
  let (lo, hi) := age_ranges.getD bIdx (0, 0)
  let (age, rng2) := rng1.integers lo (hi + 1)
  let (dobOff, rng3) := rng2.integers 0 365
  let dob := d20240701 - (age * 365 + dobOff)
  let (onbOff, rng4) := rng3.integers 0 3650
  let onboarded0 := d20150101 + onbOff
  let onboarded := if d20241231 < onboarded0 then d20241231 else onboarded0
  let (gender, rng5) := rng4.choice ["male", "female"] ""
  let (first, rng6) := rng5.text
  let tR : String × Rng :=
    if gender = "male" then rng6.choice ["Mr", "Mr", "Mr", "Dr"] ""
    else rng6.choice ["Ms", "Mrs", "Miss", "Dr"] ""
  let title := tR.1
  let rng7 := tR.2
  let (last, rng8) := rng7.text
  let (risk, rng9) := rng8.choice risk_ratings ""
  let (kyc, rng10) := rng9.choice kyc_statuses ""
  let (segment, rng11) := rng10.choice personal_segments ""
  let (uA, rng12) := rng11.random
  let is_active := decide (0.08 < uA)
  let cdR : Option ℤ × Rng :=
    if is_active then (none, rng12)
    else
      let (cOff, r) := rng12.integers 180 3000
      (some (onboarded + cOff), r)
  let closed_date := cdR.1
  let rng13 := cdR.2
  let (uN, rng14) := rng13.random
  let natR : String × Rng :=
    if 0.15 < uN then ("British", rng14) else rng14.choice nationality_pool ""
  let nationality := natR.1
  let rng15 := natR.2
  let (ni, rng16) := generate_ni_number rng15
  let (eN, rng17) := rng16.integers 1 999
  let (domain, rng18) := rng17.text
  let (mob, rng19) := rng18.text
  let (uH, rng20) := rng19.random
  let hR : Option String × Rng :=
    if 0.6 < uH then
      let (p, r) := rng20.text
      (some p, r)
    else (none, rng20)
  let home := hR.1
  let rng21 := hR.2
  let kvR : Option ℤ × Rng :=
    if kyc = "verified" then
      let (d, r) := rng21.integers 1 30
      (some (onboarded + d), r)
    else (none, rng21)
  let kvd := kvR.1
  let rng22 := kvR.2
  ({ customer_ref := "MCB-" ++ toString (10000001 + i),
     type := "personal",
     title := some title,
     first_name := some first,
     last_name := some last,
     full_name := title ++ " " ++ first ++ " " ++ last,
     date_of_birth := some dob,
     gender := some gender,
     nationality := some nationality,
     ni_number := some ni,
     email := first.toLower ++ "." ++ last.toLower ++ toString eN ++ "@" ++ domain,
     phone_mobile := mob,
     phone_home := home,
     company_name := none,
     company_reg_number := none,
     sic_code := none,
     kyc_status := kyc,
     kyc_verified_date := kvd,
     risk_rating := risk,
     customer_segment := segment,
     is_active := is_active,
     onboarded_date := onboarded,
     closed_date := closed_date }, rng22)

/-- The body of the business-customer loop (generate_customers, lines
117-150) for loop index i. -/
def businessCustomer (n_personal i : Nat) (rng : Rng) : CustomerRecord × Rng :=
  let (company, rng1) := rng.text
  let (onbOff, rng2) := rng1.integers 0 3650
  let onboarded0 := d20150101 + onbOff
  let onboarded := if d20241231 < onboarded0 then d20241231 else onboarded0
  let (risk, rng3) := rng2.choice (risk_ratings.take 4) ""
  let (uA, rng4) := rng3.random
  let is_active := decide (0.10 < uA)
  let (mob, rng5) := rng4.text
  let (uH, rng6) := rng5.random
  let hR : Option String × Rng :=
    if 0.4 < uH then
      let (p, r) := rng6.text
      (some p, r)
    else (none, rng6)
  let home := hR.1
  let rng7 := hR.2
  let (regN, rng8) := rng7.integers 1000000 99999999
  let (sic, rng9) := rng8.choice sic_codes ""
  let (kyc, rng10) :=
    rng9.choice ["verified", "verified", "verified", "enhanced_due_diligence"] ""
  let (kvdOff, rng11) := rng10.integers 1 30
  let (segment, rng12) := rng11.choice business_segments ""
  let cdR : Option ℤ × Rng :=
    if is_active then (none, rng12)
    else
      let (cOff, r) := rng12.integers 180 2000
      (some (onboarded + cOff), r)
  let closed_date := cdR.1
  let rng13 := cdR.2
  ({ customer_ref := "MCB-" ++ toString (10000001 + n_personal + i),
     type := "business",
     title := none,
     first_name := none,
     last_name := none,
     full_name := company,
     date_of_birth := none,
     gender := none,
     nationality := none,
     ni_number := none,
     email := "info@" ++
       String.mk ((company.toLower.data.filter
         (fun c => !(c = ' ' || c = ',' || c = '&'))).take 20) ++ ".co.uk",
     phone_mobile := mob,
     phone_home := home,
     company_name := some company,
     company_reg_number := some (zfill8 regN),
     sic_code := some sic,
     kyc_status := kyc,
     kyc_verified_date := some (onboarded + kvdOff),
     risk_rating := risk,
     customer_segment := segment,
     is_active := is_active,
     onboarded_date := onboarded,
     closed_date := closed_date }, rng13)

/-- Append one personal customer record to the accumulated state. -/
def personalStep (i : Nat) (st : List CustomerRecord × Rng) :
    List CustomerRecord × Rng :=
  let (r, rng1) := personalCustomer i st.2
  (st.1 ++ [r], rng1)

/-- Append one business customer record to the accumulated state. -/
def businessStep (n_personal : Nat) (i : Nat) (st : List CustomerRecord × Rng) :
    List CustomerRecord × Rng :=
  let (r, rng1) := businessCustomer n_personal i st.2
  (st.1 ++ [r], rng1)

/-- generate_customers(): n_personal = int(CUSTOMER_COUNT * PERSONAL_RATIO)
personal records followed by CUSTOMER_COUNT - n_personal business records.
Returns the record list in insertion order and the final stream. -/
def generate_customers (CUSTOMER_COUNT : Nat) ( PERSONAL_RATIO : ℚ) (rng : Rng) :
    List CustomerRecord × Rng :=
  let n_personal := (pyInt ((CUSTOMER_COUNT : ℚ) * PERSONAL_RATIO)).toNat
  let n_business := CUSTOMER_COUNT - n_personal
  let stP := foldSteps personalStep (List.range n_personal) ([], rng)
  foldSteps (businessStep n_personal) (List.range n_business) stP

/- ════════════════════════════════════════════════════════════════════
   Accounts stage (src/generators/generate_accounts.py, generate_accounts)
   ════════════════════════════════════════════════════════════════════ -/

/-- One account record as appended by generate_accounts. -/
structure AccountRecord where
  customer_id : ℤ
  product_id : ℤ
  account_number : String
  sort_code : String
  account_name : Option String
  status : String
  currency : String
  credit_limit : Option ℚ
  overdraft_limit : Option ℚ
  opened_date : ℤ
  closed_date : Option ℤ
  last_transaction_date : Option ℤ
deriving DecidableEq

/-- The state threaded through generate_accounts: accumulated records, the
used account-number keys, and the random stream. -/
abbrev GenSt := List AccountRecord × List String × Rng

/-- make_unique_account(rng): draw sort code and account number until the
key is fresh.  The unbounded Python retry loop is modelled with explicit
fuel; exhausted fuel is the (probability-zero) divergence of the source. -/
def make_unique_account : Nat → List String → Rng → Option ((String × String) × List String × Rng)
  | 0, _, _ => none
  | fuel + 1, used, rng =>
    let (sc, rng1) := generate_sort_code rng
    let (an, rng2) := generate_account_number rng1
    let key := an ++ "-" ++ sc
    if used.contains key then make_unique_account fuel used rng2
    else some ((an, sc), key :: used, rng2)

/-- _make_account (generate_accounts.py, lines 170-201): build one account
record, drawing the closure date, credit limit and overdraft limit. -/
def _make_account (customer_id product_id : ℤ) (account_number sort_code : String)
    (status : String) (opened_date : ℤ) (rng : Rng) : AccountRecord × Rng :=
  let opened := if d20241231 < opened_date then d20241231 else opened_date
  let cdR : Option ℤ × Rng :=
    if status = "closed" then
      let (c, r) := rng.integers 90 2000
      (some (opened + c), r)
    else (none, rng)
  let closed_date := cdR.1
  let rng1 := cdR.2
  let clR : Option ℚ × Rng :=
    if 15 ≤ product_id ∧ product_id < 17 then
      let (v, r) := rng1.choice ([1000, 2000, 3000, 5000, 7500, 10000, 15000] : List ℚ) 0
      (some v, r)
    else (none, rng1)
  let credit_limit := clR.1
  let rng2 := clR.2
  let (uO, rng3) := rng2.random
  let odR : Option ℚ × Rng :=
    if uO < 0.3 then
      let (v, r) := rng3.choice ([250, 500, 1000, 1500, 2000, 3000] : List ℚ) 0
      (some v, r)
    else (none, rng3)
  let overdraft_limit := odR.1
  let rng4 := odR.2
  ({ customer_id := customer_id,
     product_id := product_id,
     account_number := account_number,
     sort_code := sort_code,
     account_name := none,
     status := status,
     currency := "GBP",
     credit_limit := credit_limit,
     overdraft_limit := overdraft_limit,
     opened_date := opened,
     closed_date := closed_date,
     last_transaction_date := none }, rng4)

/-- Personal current account (always issued). -/
def pCurrent (AAR : ℚ) (pbc : String → List ℤ) (fuel : Nat) (cid base : ℤ)
    (st : GenSt) : Option GenSt := do
  let ((an, sc), used1, rng1) ← make_unique_account fuel st.2.1 st.2.2
  let (u, rng2) := rng1.random
  let sR : String × Rng :=
    if u < AAR then ("active", rng2) else rng2.choice ["dormant", "closed"] ""
  let status := sR.1
  let rng3 := sR.2
  let (pid, rng4) := rng3.choice (pbc "current_account") 0
  let (acctRec, rng5) := _make_account cid pid an sc status base rng4
  some (st.1 ++ [acctRec], used1, rng5)

/-- Personal savings account (60 percent branch). -/
def pSavings (pbc : String → List ℤ) (fuel : Nat) (cid base : ℤ)
    (st : GenSt) : Option GenSt :=
  let (u, rng1) := st.2.2.random
  if u < 0.60 then do
    let ((an, sc), used1, rng2) ← make_unique_account fuel st.2.1 rng1
    let (cat, rng3) := rng2.choice ["savings", "savings", "savings"] ""
    let (pid, rng4) := rng3.choice (pbc "savings") 0
    let (dOff, rng5) := rng4.integers 0 365
    let (acctRec, rng6) := _make_account cid pid an sc "active" (base + dOff) rng5
    some (st.1 ++ [acctRec], used1, rng6)
  else some (st.1, st.2.1, rng1)

/-- Personal loan or mortgage (20 percent branch, arrears sub-branch). -/
def pLoan (ARR : ℚ) (pbc : String → List ℤ) (fuel : Nat) (cid base : ℤ)
    (st : GenSt) : Option GenSt :=
  let (u, rng1) := st.2.2.random
  if u < 0.20 then do
    let ((an, sc), used1, rng2) ← make_unique_account fuel st.2.1 rng1
    let (cat, rng3) := rng2.choice ["personal_loan", "mortgage"] ""
    let (u2, rng4) := rng3.random
    let sR : String × Rng :=
      if u2 < ARR then rng4.choice ["in_arrears", "default"] "" else ("active", rng4)
    let status := sR.1
    let rng5 := sR.2
    let (pid, rng6) := rng5.choice (pbc cat) 0
    let (dOff, rng7) := rng6.integers 30 1000
    let (acctRec, rng8) := _make_account cid pid an sc status (base + dOff) rng7
    some (st.1 ++ [acctRec], used1, rng8)
  else some (st.1, st.2.1, rng1)

/-- Personal credit card (30 percent branch). -/
def pCard (pbc : String → List ℤ) (fuel : Nat) (cid base : ℤ)
    (st : GenSt) : Option GenSt :=
  let (u, rng1) := st.2.2.random
  if u < 0.30 then do
    let ((an, sc), used1, rng2) ← make_unique_account fuel st.2.1 rng1
    let (pid, rng3) := rng2.choice (pbc "credit_card") 0
    let (dOff, rng4) := rng3.integers 0 730
    let (acctRec, rng5) := _make_account cid pid an sc "active" (base + dOff) rng4
    some (st.1 ++ [acctRec], used1, rng5)
  else some (st.1, st.2.1, rng1)

/-- One personal customer (generate_accounts.py, lines 48-81): onboarding
base date, then current, savings, loan, card branches. -/
def personalAccounts (AAR ARR : ℚ) (pbc : String → List ℤ) (fuel : Nat)
    (cid : ℤ) (st : GenSt) : Option GenSt := do
  let (offset, rng1) := st.2.2.integers 0 3650
  let base0 := d20150101 + offset
  let base := if d20241231 < base0 then d20241231 else base0
  let st1 ← pCurrent AAR pbc fuel cid base (st.1, st.2.1, rng1)
  let st2 ← pSavings pbc fuel cid base st1
  let st3 ← pLoan ARR pbc fuel cid base st2
  pCard pbc fuel cid base st3

/-- Business current account (always issued, active). -/
def bCurrent (pbc : String → List ℤ) (fuel : Nat) (cid base : ℤ)
    (st : GenSt) : Option GenSt := do
  let ((an, sc), used1, rng1) ← make_unique_account fuel st.2.1 st.2.2
  let (pid, rng2) := rng1.choice (pbc "business_current") 0
  let (acctRec, rng3) := _make_account cid pid an sc "active" base rng2
  some (st.1 ++ [acctRec], used1, rng3)

/-- Business savings account (50 percent branch). -/
def bSavings (pbc : String → List ℤ) (fuel : Nat) (cid base : ℤ)
    (st : GenSt) : Option GenSt :=
  let (u, rng1) := st.2.2.random
  if u < 0.50 then do
    let ((an, sc), used1, rng2) ← make_unique_account fuel st.2.1 rng1
    let (pid, rng3) := rng2.choice (pbc "business_savings") 0
    let (dOff, rng4) := rng3.integers 0 365
    let (acctRec, rng5) := _make_account cid pid an sc "active" (base + dOff) rng4
    some (st.1 ++ [acctRec], used1, rng5)
  else some (st.1, st.2.1, rng1)

/-- Business loan (30 percent branch, arrears sub-branch without a choice
draw). -/
def bLoan (ARR : ℚ) (pbc : String → List ℤ) (fuel : Nat) (cid base : ℤ)
    (st : GenSt) : Option GenSt :=
  let (u, rng1) := st.2.2.random
  if u < 0.30 then do
    let ((an, sc), used1, rng2) ← make_unique_account fuel st.2.1 rng1
    let (u2, rng3) := rng2.random
    let status := if u2 < ARR then "in_arrears" else "active"
    let (pid, rng4) := rng3.choice (pbc "business_loan") 0
    let (dOff, rng5) := rng4.integers 30 730
    let (acctRec, rng6) := _make_account cid pid an sc status (base + dOff) rng5
    some (st.1 ++ [acctRec], used1, rng6)
  else some (st.1, st.2.1, rng1)

/-- One business customer (generate_accounts.py, lines 86-110). -/
def businessAccounts (ARR : ℚ) (pbc : String → List ℤ) (fuel : Nat)
    (cid : ℤ) (st : GenSt) : Option GenSt := do
  let (offset, rng1) := st.2.2.integers 0 3650
  let base0 := d20150101 + offset
  let base := if d20241231 < base0 then d20241231 else base0
  let st1 ← bCurrent pbc fuel cid base (st.1, st.2.1, rng1)
  let st2 ← bSavings pbc fuel cid base st1
  bLoan ARR pbc fuel cid base st2

/-- One orphaned account (generate_accounts.py, lines 114-130): the record
for loop index i references customer max_customer_id + 1000 + i. -/
def orphanStep (pbc : String → List ℤ) (fuel : Nat) (maxCid : ℤ) (i : Nat)
    (st : GenSt) : Option GenSt := do
  let ((an, sc), used1, rng1) ← make_unique_account fuel st.2.1 st.2.2
  let (pid, rng2) := rng1.choice (pbc "current_account") 0
  let acctRec : AccountRecord :=
    { customer_id := maxCid + 1000 + i,
      product_id := pid,
      account_number := an,
      sort_code := sc,
      account_name := some ("Orphaned Account " ++ toString (i + 1)),
      status := "active",
      currency := "GBP",
      credit_limit := none,
      overdraft_limit := none,
      opened_date := d20230615,
      closed_date := none,
      last_transaction_date := none }
  some (st.1 ++ [acctRec], used1, rng2)

/-- generate_accounts(): accounts for every personal customer id, every
business customer id, then ORPHANED_ACCOUNTS orphan records.  pbc is the
products-by-category map read from the store. -/
def generate_accounts (AAR ARR : ℚ) (ORPHANED_ACCOUNTS : Nat)
    (personal_ids business_ids : List ℤ) (pbc : String → List ℤ) (fuel : Nat)
    (rng : Rng) : Option GenSt := do
  let st1 ← foldStepsOpt (personalAccounts AAR ARR pbc fuel) personal_ids ([], [], rng)
  let st2 ← foldStepsOpt (businessAccounts ARR pbc fuel) business_ids st1
  let maxCid := max (npMax personal_ids) (npMax business_ids)
  foldStepsOpt (orphanStep pbc fuel maxCid) (List.range ORPHANED_ACCOUNTS) st2

/- ════════════════════════════════════════════════════════════════════
   GL entries stage (src/generators/generate_gl_entries.py, generate_gl_entries)
   ════════════════════════════════════════════════════════════════════ -/

/-- One GL entry as appended by generate_gl_entries.  The journal id
JNL-{counter:08d} is modelled by the counter itself (the formatting is
injective for every counter the generator reaches); dates are YYYYMMDD
numbers. -/
structure GLRecord where
  journal_id : Nat
  batch_id : String
  entry_date : Nat
  posting_date : Nat
  account_code : String
  cost_centre_code : String
  debit_amount : ℚ
  credit_amount : ℚ
  currency : String
  description : String
  source_system : String
  source_reference : String
  is_manual : Bool
  posted_by : String
deriving DecidableEq

/-- The transaction-type to (debit account, credit account) mapping, in
source order. -/
def txn_gl_map : List (String × String × String) :=
  [("salary", "2110", "4210"),
   ("direct_debit", "2110", "1120"),
   ("standing_order", "2110", "1120"),
   ("faster_payment", "2110", "1120"),
   ("card_payment", "2110", "4220"),
   ("interest", "5110", "2120"),
   ("fee", "4210", "2110"),
   ("loan_repayment", "1210", "2110"),
   ("mortgage_payment", "1220", "2110"),
   ("transfer_in", "2110", "1120"),
   ("transfer_out", "1120", "2110"),
   ("bacs", "2110", "1120"),
   ("chaps", "2110", "1120"),
   ("atm_withdrawal", "2110", "1130")]

/-- The YYYYMMDD number of day offset off from 2024-07-01 (the GL loop runs
offsets 0..183, i.e. 2024-07-01 to 2024-12-31). -/
def glDate (off : Nat) : Nat :=
  if off < 31 then 20240701 + off
  else if off < 62 then 20240801 + (off - 31)
  else if off < 92 then 20240901 + (off - 62)
  else if off < 123 then 20241001 + (off - 92)
  else if off < 153 then 20241101 + (off - 123)
  else 20241201 + (off - 153)

/-- batch_id = BATCH-{YYYYMMDD} of the day. -/
def dailyBatchId (off : Nat) : String :=
  "BATCH-" ++ toString (glDate off)

/-- State threaded through generate_gl_entries: accumulated records, the
journal counter, and the random stream. -/
abbrev GLSt := List GLRecord × Nat × Rng

/-- Iterate a step function n times: the shape of for j in range(n). -/
def iterSteps {σ : Type} (f : σ → σ) : Nat → σ → σ
  | 0, st => st
  | n + 1, st => iterSteps f n (f st)

/-- One journal of the daily loop (generate_gl_entries.py, lines 62-110):
increment the counter, draw cost centre, transaction type and amount, and
append the debit leg and the credit leg, which share the journal id, batch
id, cost centre, amount and source reference. -/
def glJournalStep (cc_codes : List String) (dateN : Nat) (batch : String)
    (st : GLSt) : GLSt :=
  let (recs, ctr, rng) := st
  let jid := ctr + 1
  let (cc, rng1) := rng.choice cc_codes ""
  let (tt, rng2) := rng1.choice (txn_gl_map.map (·.1)) ""
  let codes := ((txn_gl_map.find? (fun p => p.1 = tt)).map (·.2)).getD ("2110", "1120")
  let (raw, rng3) := rng2.lognormal 5 1.2
  let amount := min (round2 raw) 100000
  let (refN, rng4) := rng3.integers 100000 999999
  let desc := titleWords tt ++ " posting"
  let srcRef := "TXN-" ++ toString refN
  let debitLeg : GLRecord :=
    { journal_id := jid, batch_id := batch, entry_date := dateN,
      posting_date := dateN, account_code := codes.1, cost_centre_code := cc,
      debit_amount := amount, credit_amount := 0, currency := "GBP",
      description := desc, source_system := "core_banking",
      source_reference := srcRef, is_manual := false, posted_by := "SYSTEM" }
  let creditLeg : GLRecord :=
    { journal_id := jid, batch_id := batch, entry_date := dateN,
      posting_date := dateN, account_code := codes.2, cost_centre_code := cc,
      debit_amount := 0, credit_amount := amount, currency := "GBP",
      description := desc, source_system := "core_banking",
      source_reference := srcRef, is_manual := false, posted_by := "SYSTEM" }
  (recs ++ [debitLeg, creditLeg], jid, rng4)

/-- One day of the daily loop: draw the number of journals in [150, 250)
and run that many journal steps under the daily batch id. -/
def glDayStep (cc_codes : List String) (off : Nat) (st : GLSt) : GLSt :=
  let (recs, ctr, rng) := st
  let (nj, rng1) := rng.integers 150 250
  iterSteps (glJournalStep cc_codes (glDate off) (dailyBatchId off)) nj.toNat
    (recs, ctr, rng1)

/-- The intentionally imbalanced debit leg (15000.00, lines 120-135). -/
def imbalanceDebit (jid : Nat) (batch : String) : GLRecord :=
  { journal_id := jid, batch_id := batch, entry_date := 20241115,
    posting_date := 20241115, account_code := "4210",
    cost_centre_code := "CC-FIN", debit_amount := 15000, credit_amount := 0,
    currency := "GBP", description := "IMBALANCED ENTRY — Fee adjustment (DQ test)",
    source_system := "manual", source_reference := "MANUAL-ERR-001",
    is_manual := true, posted_by := "FIN-003" }

/-- The intentionally imbalanced credit leg (14500.00: a 500 imbalance,
lines 136-152). -/
def imbalanceCredit (jid : Nat) (batch : String) : GLRecord :=
  { journal_id := jid, batch_id := batch, entry_date := 20241115,
    posting_date := 20241115, account_code := "2110",
    cost_centre_code := "CC-FIN", debit_amount := 0, credit_amount := 14500,
    currency := "GBP", description := "IMBALANCED ENTRY — Fee adjustment (DQ test)",
    source_system := "manual", source_reference := "MANUAL-ERR-001",
    is_manual := true, posted_by := "FIN-003" }

/-- generate_gl_entries(): 184 daily batches of paired journals, then the
one imbalanced journal pair under GL_IMBALANCE_BATCH.  gl_codes is fetched
by the source but unused by the journal loop. -/
def generate_gl_entries (GL_IMBALANCE_BATCH : String)
    (gl_codes cc_codes : List String) (rng : Rng) : GLSt :=
  let st := foldSteps (glDayStep cc_codes) (List.range 184) ([], 0, rng)
  (st.1 ++ [imbalanceDebit (st.2.1 + 1) GL_IMBALANCE_BATCH,
            imbalanceCredit (st.2.1 + 2) GL_IMBALANCE_BATCH], st.2.1 + 2, st.2.2)

/-- Sum of debit amounts of the entries of batch b. -/
def sumDebit (b : String) (l : List GLRecord) : ℚ :=
  ((l.filter (fun r => r.batch_id == b)).map (·.debit_amount)).sum

/-- Sum of credit amounts of the entries of batch b. -/
def sumCredit (b : String) (l : List GLRecord) : ℚ :=
  ((l.filter (fun r => r.batch_id == b)).map (·.credit_amount)).sum

/- ════════════════════════════════════════════════════════════════════
   Transactions stage (src/generators/generate_transactions.py)
   ════════════════════════════════════════════════════════════════════ -/

/-- One transaction record as appended by generate_transactions; the
timestamp is kept as its date, hour and minute components. -/
structure TxnRecord where
  account_id : ℤ
  txn_date : ℤ
  txn_hour : ℤ
  txn_minute : ℤ
  value_date : ℤ
  amount : ℚ
  currency : String
  txn_type : String
  description : String
  counterparty_name : String
  counterparty_account : Option String
  counterparty_sort_code : Option String
  channel : String
  reference : String
  status : String
  balance_after : Option ℚ
deriving DecidableEq

/-- One row of the active-accounts query feeding generate_transactions:
account id, customer id, status, product category, and the customer type of
the LEFT JOIN (None for orphaned accounts). -/
structure ActiveAccount where
  account_id : ℤ
  customer_id : ℤ
  status : String
  category : String
  cust_type : Option String
deriving DecidableEq

/-- Python r[4] or str personal: None and the empty string both fall back. -/
def orPersonal : Option String → String
  | none => "personal"
  | some t => if t = "" then "personal" else t

/-- The transaction type list and weights of the current_account category
(also the .get default). -/
def currentAccountTypeConfig : List String × List ℚ :=
  (["direct_debit", "standing_order", "faster_payment", "card_payment",
    "atm_withdrawal", "salary", "transfer_out", "transfer_in", "bacs", "fee"],
   [0.15, 0.08, 0.20, 0.25, 0.05, 0.08, 0.05, 0.05, 0.07, 0.02])

/-- TXN_TYPE_WEIGHTS: transaction type distributions by account category. -/
def TXN_TYPE_WEIGHTS : List (String × List String × List ℚ) :=
  [("current_account", currentAccountTypeConfig),
   ("savings",
    (["transfer_in", "transfer_out", "interest", "faster_payment"],
     [0.40, 0.35, 0.15, 0.10])),
   ("personal_loan",
    (["loan_repayment", "interest", "fee"], [0.70, 0.20, 0.10])),
   ("mortgage",
    (["mortgage_payment", "interest", "fee"], [0.70, 0.20, 0.10])),
   ("credit_card",
    (["card_payment", "faster_payment", "interest", "fee", "transfer_in"],
     [0.55, 0.10, 0.15, 0.05, 0.15])),
   ("business_current",
    (["direct_debit", "faster_payment", "bacs", "chaps", "card_payment",
      "salary", "transfer_out", "transfer_in", "fee"],
     [0.12, 0.20, 0.15, 0.05, 0.15, 0.10, 0.08, 0.10, 0.05])),
   ("business_loan",
    (["loan_repayment", "interest", "fee"], [0.70, 0.20, 0.10])),
   ("business_savings",
    (["transfer_in", "transfer_out", "interest"], [0.45, 0.40, 0.15]))]

/-- TXN_TYPE_WEIGHTS.get(cat, TXN_TYPE_WEIGHTS[current_account]). -/
def txnTypeConfig (cat : String) : List String × List ℚ :=
  ((TXN_TYPE_WEIGHTS.find? (fun p => p.1 = cat)).map (·.2)).getD
    currentAccountTypeConfig

/-- AMOUNT_PARAMS: lognormal (mean, std) by transaction type. -/
def AMOUNT_PARAMS : List (String × ℚ × ℚ) :=
  [("direct_debit", 4.0, 0.8),
   ("standing_order", 5.0, 0.5),
   ("faster_payment", 4.5, 1.0),
   ("card_payment", 3.0, 0.9),
   ("atm_withdrawal", 3.3, 0.3),
   ("salary", 7.5, 0.4),
   ("transfer_out", 5.0, 1.2),
   ("transfer_in", 5.0, 1.2),
   ("bacs", 5.5, 1.0),
   ("chaps", 9.0, 1.5),
   ("interest", 2.0, 1.0),
   ("fee", 1.5, 0.5),
   ("loan_repayment", 5.8, 0.3),
   ("mortgage_payment", 6.7, 0.3)]

/-- The channel pool and its weighted draw population. -/
def CHANNELS : List String :=
  ["online", "mobile", "branch", "atm", "phone", "api", "batch"]

/-- Expected monthly transaction count by product category (lines 112-119). -/
def avgMonthly (AVG_TXN_PER_ACCOUNT_MONTH : Nat) (cat : String) : Nat :=
  if cat = "savings" ∨ cat = "business_savings" then 3
  else if cat = "personal_loan" ∨ cat = "mortgage" ∨ cat = "business_loan" then 2
  else if cat = "credit_card" then 15
  else AVG_TXN_PER_ACCOUNT_MONTH

/-- The transaction amount pipeline (lines 138-155): round the lognormal
draw to 2 places, cap at 500000, for ATM withdrawals round to the nearest 10
and clamp to [10, 500], force to zero when the injection fires, then negate
unless the type is a credit type. -/
def txnAmount (raw : ℚ) (txn_type : String) (forceZero : Bool) : ℚ :=
  let a1 := min (round2 raw) 500000
  let a2 :=
    if txn_type = "atm_withdrawal" then
      max 10 (min ((pyRound (a1 / 10) : ℚ) * 10) 500)
    else a1
  let a3 := if forceZero then 0 else a2
  if txn_type = "salary" ∨ txn_type = "transfer_in" ∨ txn_type = "interest" then a3
  else -a3

/-- Insert into a sorted list (ascending). -/
def sortedInsert (x : ℤ) : List ℤ → List ℤ
  | [] => [x]
  | y :: ys => if x ≤ y then x :: y :: ys else y :: sortedInsert x ys

/-- Python sorted() on the sampled transaction dates. -/
def pySorted : List ℤ → List ℤ
  | [] => []
  | x :: xs => sortedInsert x (pySorted xs)

/-- State threaded through generate_transactions: accumulated records, the
realized zero-amount counter, and the random stream. -/
abbrev TxSt := List TxnRecord × Nat × Rng

/-- One transaction of the inner loop (lines 133-202) for the given type and
date: amount pipeline with the capped zero-amount injection, channel,
timestamp, status, counterparty and reference draws, then append. -/
def txnStep (ZERO_AMOUNT_TXNS : Nat) (aid : ℤ) (isBusiness : Bool)
    (td : String × ℤ) (st : TxSt) : TxSt :=
  let (recs, zc, rng) := st
  let tt := td.1
  let d := td.2
  let ms := ((AMOUNT_PARAMS.find? (fun p => p.1 = tt)).map (·.2)).getD (4.0, 0.8)
  let (raw, rng1) := rng.lognormal ms.1 ms.2
  let fzR : Bool × Nat × Rng :=
    if zc < ZERO_AMOUNT_TXNS then
      let (u, r) := rng1.random
      if u < 0.0001 then (true, zc + 1, r) else (false, zc, r)
    else (false, zc, rng1)
  let forceZero := fzR.1
  let zc1 := fzR.2.1
  let rng2 := fzR.2.2
  let amount := txnAmount raw tt forceZero
  let chR : String × Rng :=
    if tt = "direct_debit" ∨ tt = "standing_order" ∨ tt = "bacs" ∨
        tt = "interest" ∨ tt = "fee" then ("batch", rng2)
    else if tt = "atm_withdrawal" then ("atm", rng2)
    else if tt = "card_payment" then rng2.choice ["mobile", "online", "branch"] ""
    else if tt = "salary" then
      let (u, r) := rng2.random
      (if 0.5 < u then "api" else "batch", r)
    else if tt = "chaps" then ("api", rng2)
    else rng2.choice CHANNELS ""
  let channel := chR.1
  let rng3 := chR.2
  let (hq, rng4) := rng3.normal 13 4
  let hour := max 0 (min 23 (pyInt hq))
  let (minute, rng5) := rng4.integers 0 60
  let (uS, rng6) := rng5.random
  let stR : String × Rng :=
    if uS < 0.005 then rng6.choice ["failed", "reversed", "disputed"] ""
    else ("completed", rng6)
  let statusVal := stR.1
  let rng7 := stR.2
  let (counterparty, rng8) := get_counterparty tt isBusiness rng7
  let (uA, rng9) := rng8.random
  let caR : Option String × Rng :=
    if 0.3 < uA then
      let (s, r) := generate_account_number rng9
      (some s, r)
    else (none, rng9)
  let cpAcct := caR.1
  let rng10 := caR.2
  let (uC, rng11) := rng10.random
  let csR : Option String × Rng :=
    if 0.3 < uC then
      let (s, r) := generate_sort_code rng11
      (some s, r)
    else (none, rng11)
  let cpSort := csR.1
  let rng12 := csR.2
  let (refN, rng13) := rng12.integers 100000 999999
  let txnRec : TxnRecord :=
    { account_id := aid, txn_date := d, txn_hour := hour, txn_minute := minute,
      value_date := d, amount := amount, currency := "GBP", txn_type := tt,
      description := titleWords tt ++ " - " ++ counterparty,
      counterparty_name := counterparty, counterparty_account := cpAcct,
      counterparty_sort_code := cpSort, channel := channel,
      reference := "REF" ++ toString refN, status := statusVal,
      balance_after := none }
  (recs ++ [txnRec], zc1, rng13)

/-- The per-account body of generate_transactions (lines 110-202): Poisson
count (floored at 1), the per-category type list, the sampled and sorted
dates, then the inner per-transaction loop. -/
def txnForAccount (ZERO_AMOUNT_TXNS AVG : Nat) (dates : List ℤ)
    (acct : ActiveAccount) (st : TxSt) : TxSt :=
  let (recs, zc, rng) := st
  let avgM := avgMonthly AVG acct.category
  let (pv, rng1) := rng.poisson (avgM * 6)
  let n := max 1 pv
  if n = 0 then (recs, zc, rng1)
  else
    let tcfg := txnTypeConfig acct.category
    let (types, rng2) := Rng.choiceN tcfg.1 "" n rng1
    let (rawDates, rng3) := Rng.choiceN dates 0 n rng2
    let txnDates := pySorted rawDates
    let isBusiness := orPersonal acct.cust_type == "business"
    foldSteps (txnStep ZERO_AMOUNT_TXNS acct.account_id isBusiness)
      (types.zip txnDates) (recs, zc, rng3)

/-- generate_transactions(): runs the per-account loop over every fetched
active account; returns the records, the realized zero-amount counter that
the stage reports, and the final stream. -/
def generate_transactions (ZERO_AMOUNT_TXNS AVG : Nat) (dateStart dateEnd : ℤ)
    (accounts : List ActiveAccount) (rng : Rng) : TxSt :=
  let nDays := dateEnd - dateStart + 1
  let dates := (List.range nDays.toNat).map (fun d => dateStart + (d : ℤ))
  foldSteps (txnForAccount ZERO_AMOUNT_TXNS AVG dates) accounts ([], 0, rng)

/- ════════════════════════════════════════════════════════════════════
   Per-stage dedicated streams (claim C6)
   ════════════════════════════════════════════════════════════════════ -/

/-- A world of seeded generators: np.random.default_rng(s) is a pure
function of its seed s, modelled as a map from seeds to streams.  Stages
draw from world (SEED + offset) only, so the draws of other stages (made on
other seeds) cannot influence them. -/
abbrev World := Nat → Rng

/-- The accounts stage entry: rng = np.random.default_rng(SEED + 10)
(generate_accounts.py, line 18). -/
def accountsStage (world : World) (SEED : Nat) (AAR ARR : ℚ)
    (ORPHANED_ACCOUNTS : Nat) (personal_ids business_ids : List ℤ)
    (pbc : String → List ℤ) (fuel : Nat) : Option GenSt :=
  generate_accounts AAR ARR ORPHANED_ACCOUNTS personal_ids business_ids pbc fuel
    (world (SEED + 10))

/-- The transactions stage entry: rng = np.random.default_rng(SEED + 20)
(generate_transactions.py, line 83). -/
def transactionsStage (world : World) (SEED : Nat) (ZERO_AMOUNT_TXNS AVG : Nat)
    (dateStart dateEnd : ℤ) (accounts : List ActiveAccount) : TxSt :=
  generate_transactions ZERO_AMOUNT_TXNS AVG dateStart dateEnd accounts
    (world (SEED + 20))

/- ════════════════════════════════════════════════════════════════════
   Concrete streams, worlds and inputs used by witnesses and counterexamples
   ════════════════════════════════════════════════════════════════════ -/

/-- A concrete stream: uniform draws one half, lognormal draws 27, normal
draws 13, index draws equal to the position, text draws x. -/
def rngA : Rng :=
  { uni := fun _ => 1 / 2, logn := fun _ => ⟨27, by norm_num⟩,
    nrm := fun _ => 13, idx := fun k => k, txt := fun _ => "x", pos := 0 }

/-- A second concrete stream, differing from rngA. -/
def rngB : Rng :=
  { rngA with pos := 99 }

/-- A world mapping every seed to rngA. -/
def worldA : World := fun _ => rngA

/-- A world agreeing with worldA except at seed 0. -/
def worldB : World := fun s => if s = 0 then rngB else rngA

/-- The stream of the C3 counterexample run: the first index draw (Poisson
count) is 0, the second (type choice) is 4 selecting atm_withdrawal, uniform
draws are 0 so the zero-amount injection fires, lognormal draws are 27. -/
def rngZeroAtm : Rng :=
  { uni := fun _ => 0, logn := fun _ => ⟨27, by norm_num⟩, nrm := fun _ => 13,
    idx := fun p => if p = 1 then 4 else 0, txt := fun _ => "x", pos := 0 }

/-- The single active current account of the C3 counterexample run. -/
def oneCurrentAccount : List ActiveAccount :=
  [{ account_id := 1, customer_id := 1, status := "active",
     category := "current_account", cust_type := some "personal" }]

/-- A registry holding one entity type, for the C9 witness. -/
def reg0 : IDRegistry :=
  IDRegistry.empty.register "customer_ids" [1, 2]

/-- A one-table database state for the C7 witness. -/
def db0 : List (String × List (List PyVal)) :=
  [("core_banking.customers", [[PyVal.int 1]])]

/-- A products-by-category map with a single product 7 in every category,
for the C1 witness. -/
def pbc0 : String → List ℤ := fun _ => [7]

/-- The mutual-exclusivity property of claim C5 for one customer record. -/
def customerVariantOk (r : CustomerRecord) : Prop :=
  (r.type = "personal" ∨ r.type = "business") ∧
  (r.type = "business" →
    r.title = none ∧ r.first_name = none ∧ r.last_name = none ∧
    r.date_of_birth = none ∧ r.gender = none ∧ r.nationality = none ∧
    r.ni_number = none) ∧
  (r.type = "personal" →
    r.company_name = none ∧ r.company_reg_number = none ∧ r.sic_code = none)

/-- The amount property of claim C3 (amended) for one transaction record. -/
def txnAmountOk (r : TxnRecord) : Prop :=
  |r.amount| ≤ 500000 ∧
  (r.txn_type = "atm_withdrawal" →
    r.amount = 0 ∨
      ((∃ k : ℤ, r.amount = 10 * k) ∧ 10 ≤ |r.amount| ∧ |r.amount| ≤ 500))

/-- The shape of the legs of one daily journal j: absent, or exactly one
debit leg and one credit leg sharing journal id and batch id with equal
amounts. -/
def balancedPair (j : Nat) (l : List GLRecord) : Prop :=
  l = [] ∨
    ∃ d c, l = [d, c] ∧ d.journal_id = j ∧ c.journal_id = j ∧
      d.batch_id = c.batch_id ∧ d.debit_amount = c.credit_amount ∧
      d.credit_amount = 0 ∧ c.debit_amount = 0

/-- The invariant of the GL daily loop: every batch is balanced, journal ids
are bounded by the counter, every journal filters to a balanced pair, and no
daily record is manual. -/
def glInv (st : GLSt) : Prop :=
  (∀ b, sumDebit b st.1 = sumCredit b st.1) ∧
  (∀ r ∈ st.1, r.journal_id ≤ st.2.1) ∧
  (∀ j, balancedPair j (st.1.filter (fun r => r.journal_id == j))) ∧
  (∀ r ∈ st.1, r.is_manual = false)

/-- A fallible accounts step appends only records of customer cid. -/
def AppendsCid (cid : ℤ) (f : GenSt → Option GenSt) : Prop :=
  ∀ st st', f st = some st' →
    ∃ ex, st'.1 = st.1 ++ ex ∧ ∀ r ∈ ex, r.customer_id = cid

/- ════════════════════════════════════════════════════════════════════
   Theorems
   ════════════════════════════════════════════════════════════════════ -/

lemma lookup_eq_none_of_not_mem_keys (r : IDRegistry) (t : String)
    (h : t ∉ r.keys) : r.lookup t = none := by
  unfold IDRegistry.lookup
  rw [List.find?_eq_none.mpr]
  · rfl
  intro p hp
  simp only [decide_eq_true_eq]
  intro hpt
  exact h (hpt ▸ List.mem_map_of_mem (·.1) hp)

/-- C9: for every entity type not previously registered, get_ids fails with
an error naming the requested type and listing the registered types, and
never returns a list (in particular not the empty one); for every registered
type it returns the stored id list. -/
theorem c9_registry_get_ids (r : IDRegistry) (t : String) :
    (t ∉ r.keys →
      r.get_ids t = Except.error ⟨t, r.keys⟩ ∧ ∀ l, r.get_ids t ≠ Except.ok l) ∧
    (∀ ids, r.lookup t = some ids → r.get_ids t = Except.ok ids) := by
  constructor
  · intro h
    have hn := lookup_eq_none_of_not_mem_keys r t h
    constructor
    · unfold IDRegistry.get_ids
      rw [hn]
    · intro l
      unfold IDRegistry.get_ids
      rw [hn]
      simp
  · intro ids h
    unfold IDRegistry.get_ids
    rw [h]

/-- C9 witness: on a registry holding only customer_ids, a lookup of
account_ids errors with the requested name and the registered list, and the
registered lookup returns the stored ids. -/
theorem c9_registry_get_ids_witness :
    reg0.get_ids "account_ids" = Except.error ⟨"account_ids", ["customer_ids"]⟩ ∧
    reg0.get_ids "customer_ids" = Except.ok [1, 2] := by
  refine ⟨((c9_registry_get_ids reg0 "account_ids").1 (by decide)).1, ?_⟩
  exact (c9_registry_get_ids reg0 "customer_ids").2 [1, 2] (by decide)

/-- C10: on the fetched accounts row (account 1, customer 42, product 7,
status active) the source filter on index 1 (customer_id) registers the
empty list, while the set the registration is meant to capture (filter on
the status column, index 3) is the account id 1: the code and its own
status fetch disagree. -/
theorem c10_active_ids_bug :
    activeIdsFrom accountsRowsExample = [] ∧
    claimedActiveIdsFrom accountsRowsExample = [PyVal.int 1] := by
  decide

/-- C7: every query rejected by the read-only gate (not starting with
SELECT or WITH after strip and upper, or containing a forbidden keyword as
a whole word) yields a structured error without consulting the engine and
with the database state unchanged, for every engine and state; in
particular the DELETE statement on core_banking.customers. -/
theorem c7_sql_readonly_gate {DB : Type}
    (exec : DB → String → (List String × List (List PyVal)) × DB) (db : DB)
    (query : String) (h : sqlGateBlocked query = true) :
    (∃ msg, execute_sql_query exec db query = (SqlResult.error msg, db)) ∧
    execute_sql_query exec db "DELETE FROM core_banking.customers" =
      (SqlResult.error "Only SELECT queries are permitted.", db) := by
  refine ⟨?_, by rfl⟩
  unfold sqlGateBlocked at h
  cases hb : (("SELECT".data.isPrefixOf (strippedUpper query) ||
      "WITH".data.isPrefixOf (strippedUpper query)) : Bool) with
  | false =>
    refine ⟨"Only SELECT queries are permitted.", ?_⟩
    simp only [execute_sql_query]
    rw [hb]
  | true =>
    have hany : dangerous.any
        (fun kw => containsWord kw.data (strippedUpper query)) = true := by
      simp only [hb, Bool.not_true, Bool.false_or] at h
      exact h
    obtain ⟨kw, hkw⟩ : ∃ kw, dangerous.find?
        (fun kw => containsWord kw.data (strippedUpper query)) = some kw := by
      cases hf : dangerous.find?
          (fun kw => containsWord kw.data (strippedUpper query)) with
      | some k => exact ⟨k, rfl⟩
      | none =>
        exfalso
        rw [List.find?_eq_none] at hf
        rcases List.any_eq_true.mp hany with ⟨x, hx, hpx⟩
        exact absurd hpx (by simpa using hf x hx)
    refine ⟨"Query contains forbidden keyword: " ++ kw, ?_⟩
    simp only [execute_sql_query]
    rw [hb, hkw]

/-- C7 witness: the DELETE statement is blocked by the gate on a concrete
engine and database state, which is returned unchanged. -/
theorem c7_sql_readonly_gate_witness :
    (∃ msg, execute_sql_query execAllRows db0 "DELETE FROM core_banking.customers" =
      (SqlResult.error msg, db0)) ∧
    execute_sql_query execAllRows db0 "DELETE FROM core_banking.customers" =
      (SqlResult.error "Only SELECT queries are permitted.", db0) :=
  c7_sql_readonly_gate execAllRows db0 "DELETE FROM core_banking.customers" (by decide)

/-- C8 (amended): every successful query returns at most 500 rows with
row_count equal to the number of returned rows, and the truncated flag is
set if and only if the full result set reached the 500-row cap — including
the boundary case of exactly 500 rows, where the flag is set although no
row was omitted. -/
theorem c8_truncation_semantics {DB : Type}
    (exec : DB → String → (List String × List (List PyVal)) × DB) (db : DB)
    (query : String) (cols : List String) (rows : List (List PyVal)) (n : Nat)
    (t : Bool) (db1 : DB)
    (h : execute_sql_query exec db query = (SqlResult.ok cols rows n t, db1)) :
    rows.length ≤ 500 ∧ n = rows.length ∧
      (t = true ↔ 500 ≤ ((exec db query).1.2.length)) := by
  unfold execute_sql_query at h
  cases hb : (("SELECT".data.isPrefixOf (strippedUpper query) ||
      "WITH".data.isPrefixOf (strippedUpper query)) : Bool) with
  | false =>
    rw [hb] at h
    simp at h
  | true =>
    rw [hb] at h
    cases hf : dangerous.find?
        (fun kw => containsWord kw.data (strippedUpper query)) with
    | some kw =>
      rw [hf] at h
      simp at h
    | none =>
      rw [hf] at h
      simp only [Prod.mk.injEq, SqlResult.ok.injEq] at h
      obtain ⟨⟨hc, hr, hn, ht⟩, hdb⟩ := h
      subst hr
      have hlen : (((exec db query).1.2.take 500).map
          (fun row => row.map pyConvert)).length = min 500 ((exec db query).1.2.length) := by
        rw [List.length_map, List.length_take]
      refine ⟨by omega, hn.symm, ?_⟩
      rw [← ht]
      simp only [decide_eq_true_eq]
      omega

set_option maxRecDepth 8000 in
/-- C8 counterexample: on an engine whose full result set has exactly 500
rows, the tool returns all 500 rows (none omitted) yet sets truncated. -/
theorem c8_truncated_counterexample :
    (execute_sql_query exec500 () "SELECT 1").1 =
      SqlResult.ok ["c"] (List.replicate 500 [PyVal.int 1]) 500 true ∧
    (exec500 () "SELECT 1").1.2.length = 500 := by
  constructor
  · rfl
  · rfl

set_option maxRecDepth 8000 in
/-- C8 witness: the amended truncation semantics instantiated on the
concrete 500-row engine. -/
theorem c8_truncation_semantics_witness :
    (List.replicate 500 ([PyVal.int 1])).length ≤ 500 ∧
    500 = (List.replicate 500 ([PyVal.int 1])).length ∧
    (true = true ↔ 500 ≤ ((exec500 () "SELECT 1").1.2.length)) :=
  c8_truncation_semantics exec500 () "SELECT 1" ["c"]
    (List.replicate 500 [PyVal.int 1]) 500 true () (by rfl)

/-- C6: each stage draws from the dedicated stream of seed SEED plus its
fixed offset (10 for accounts, 20 for transactions), so two runs with the
same master seed, configuration and upstream state whose worlds agree on the
dedicated seeds produce identical records, independent of the draws other
stages made from other seeds. -/
theorem c6_stage_determinism (w1 w2 : World) (SEED : Nat) (AAR ARR : ℚ)
    (ORPHANED_ACCOUNTS : Nat) (personal_ids business_ids : List ℤ)
    (pbc : String → List ℤ) (fuel : Nat) (ZERO_AMOUNT_TXNS AVG : Nat)
    (dateStart dateEnd : ℤ) (accounts : List ActiveAccount)
    (h10 : w1 (SEED + 10) = w2 (SEED + 10))
    (h20 : w1 (SEED + 20) = w2 (SEED + 20)) :
    accountsStage w1 SEED AAR ARR ORPHANED_ACCOUNTS personal_ids business_ids
        pbc fuel =
      accountsStage w2 SEED AAR ARR ORPHANED_ACCOUNTS personal_ids business_ids
        pbc fuel ∧
    transactionsStage w1 SEED ZERO_AMOUNT_TXNS AVG dateStart dateEnd accounts =
      transactionsStage w2 SEED ZERO_AMOUNT_TXNS AVG dateStart dateEnd accounts := by
  unfold accountsStage transactionsStage
  rw [h10, h20]
  exact ⟨rfl, rfl⟩

/-- C6 witness: two worlds differing at seed 0 but agreeing on the dedicated
stage seeds of master seed 5 give identical accounts and transactions stage
outputs. -/
theorem c6_stage_determinism_witness :
    accountsStage worldA 5 1 (1 / 2) 1 [1] [2] pbc0 2 =
      accountsStage worldB 5 1 (1 / 2) 1 [1] [2] pbc0 2 ∧
    transactionsStage worldA 5 1 5 0 0 oneCurrentAccount =
      transactionsStage worldB 5 1 5 0 0 oneCurrentAccount :=
  c6_stage_determinism worldA worldB 5 1 (1 / 2) 1 [1] [2] pbc0 2 1 5 0 0
    oneCurrentAccount (by simp [worldA, worldB]) (by simp [worldA, worldB])

lemma foldSteps_records_mem {α β τ : Type} (f : α → List β × τ → List β × τ)
    (P : β → Prop) (hf : ∀ a st, ∀ r ∈ (f a st).1, r ∈ st.1 ∨ P r) :
    ∀ (l : List α) (st : List β × τ), ∀ r ∈ (foldSteps f l st).1, r ∈ st.1 ∨ P r := by
  intro l
  induction l with
  | nil => exact fun st r hr => Or.inl hr
  | cons a l ih =>
    intro st r hr
    rcases ih (f a st) r hr with h | h
    · exact hf a st r h
    · exact Or.inr h

lemma personalCustomer_variantOk (i : Nat) (rng : Rng) :
    customerVariantOk (personalCustomer i rng).1 := by
  refine ⟨Or.inl rfl, ?_, fun _ => ⟨rfl, rfl, rfl⟩⟩
  intro h
  exact absurd (show ("personal" : String) = "business" from h) (by decide)

lemma businessCustomer_variantOk (n i : Nat) (rng : Rng) :
    customerVariantOk (businessCustomer n i rng).1 := by
  refine ⟨Or.inr rfl, fun _ => ⟨rfl, rfl, rfl, rfl, rfl, rfl, rfl⟩, ?_⟩
  intro h
  exact absurd (show ("business" : String) = "personal" from h) (by decide)

lemma personalStep_mem (i : Nat) (st : List CustomerRecord × Rng) :
    ∀ r ∈ (personalStep i st).1, r ∈ st.1 ∨ customerVariantOk r := by
  intro r hr
  rcases List.mem_append.mp hr with h | h
  · exact Or.inl h
  · right
    have he : r = (personalCustomer i st.2).1 := List.mem_singleton.mp h
    rw [he]
    exact personalCustomer_variantOk i st.2

lemma businessStep_mem (n i : Nat) (st : List CustomerRecord × Rng) :
    ∀ r ∈ (businessStep n i st).1, r ∈ st.1 ∨ customerVariantOk r := by
  intro r hr
  rcases List.mem_append.mp hr with h | h
  · exact Or.inl h
  · right
    have he : r = (businessCustomer n i st.2).1 := List.mem_singleton.mp h
    rw [he]
    exact businessCustomer_variantOk n i st.2

/-- C5: every record produced by the customers stage has type personal or
business; business records carry none of the personal identity fields and
personal records carry none of the business fields. -/
theorem c5_customer_type_variants (CUSTOMER_COUNT : Nat) ( PERSONAL_RATIO : ℚ)
    (rng : Rng) :
    ∀ r ∈ (generate_customers CUSTOMER_COUNT PERSONAL_RATIO rng).1,
      customerVariantOk r := by
  intro r hr
  unfold generate_customers at hr
  rcases foldSteps_records_mem _ _ (businessStep_mem _) _ _ r hr with h | h
  · rcases foldSteps_records_mem _ _ personalStep_mem _ _ r h with h2 | h2
    · exact absurd h2 (List.not_mem_nil r)
    · exact h2
  · exact h

/-- C5 witness: the property instantiated on the first record of a concrete
two-customer run. -/
theorem c5_customer_type_variants_witness :
    customerVariantOk (personalCustomer 0 rngA).1 :=
  c5_customer_type_variants 2 (1 / 2) rngA (personalCustomer 0 rngA).1
    (List.Mem.head _)

lemma foldSteps_inv {α σ : Type} (f : α → σ → σ) (Inv : σ → Prop)
    (hf : ∀ a st, Inv st → Inv (f a st)) :
    ∀ (l : List α) (st : σ), Inv st → Inv (foldSteps f l st) := by
  intro l
  induction l with
  | nil => exact fun st h => h
  | cons a l ih => exact fun st h => ih (f a st) (hf a st h)

lemma txnStep_zc_le (ZT : Nat) (aid : ℤ) (isB : Bool) (td : String × ℤ)
    (st : TxSt) (h : st.2.1 ≤ ZT) : (txnStep ZT aid isB td st).2.1 ≤ ZT := by
  obtain ⟨recs, zc, rng⟩ := st
  unfold txnStep
  dsimp only at h ⊢
  split
  · split
    · dsimp only
      omega
    · dsimp only
      omega
  · dsimp only
    omega

lemma txnForAccount_zc_le (ZT AVG : Nat) (dates : List ℤ) (acct : ActiveAccount)
    (st : TxSt) (h : st.2.1 ≤ ZT) :
    (txnForAccount ZT AVG dates acct st).2.1 ≤ ZT := by
  unfold txnForAccount
  dsimp only
  split
  · exact h
  · refine foldSteps_inv _ (fun s => s.2.1 ≤ ZT)
      (fun td s hs =>
        txnStep_zc_le ZT acct.account_id (orPersonal acct.cust_type == "business")
          td s hs) _ _ ?_
    exact h

/-- C4: the realized zero-amount counter that generate_transactions tracks
and reports never exceeds the configured ZERO_AMOUNT_TXNS target, for every
sequence of random draws; the injection is applied inside the per-record
step of the main loop (txnStep), not as a post-processing pass. -/
theorem c4_zero_amount_capped (ZERO_AMOUNT_TXNS AVG : Nat) (dateStart dateEnd : ℤ)
    (accounts : List ActiveAccount) (rng : Rng) :
    (generate_transactions ZERO_AMOUNT_TXNS AVG dateStart dateEnd accounts rng).2.1 ≤
      ZERO_AMOUNT_TXNS := by
  unfold generate_transactions
  refine foldSteps_inv _ (fun s => s.2.1 ≤ ZERO_AMOUNT_TXNS)
    (fun a s hs => txnForAccount_zc_le _ _ _ a s hs) accounts _ ?_
  exact Nat.zero_le _

lemma pyRound_nonneg (q : ℚ) (h : 0 ≤ q) : 0 ≤ pyRound q := by
  have hf : 0 ≤ Rat.floor q := Rat.le_floor.mpr (by exact_mod_cast h)
  unfold pyRound
  dsimp only
  split
  · exact hf
  · split
    · omega
    · split
      · exact hf
      · omega

lemma round2_nonneg (q : ℚ) (h : 0 ≤ q) : 0 ≤ round2 q := by
  unfold round2
  have := pyRound_nonneg (q * 100) (by positivity)
  positivity

lemma txnAmount_abs_le (raw : ℚ) (h : 0 ≤ raw) (tt : String) (fz : Bool) :
    |txnAmount raw tt fz| ≤ 500000 := by
  unfold txnAmount
  dsimp only
  have h1 : 0 ≤ min (round2 raw) 500000 := le_min (round2_nonneg raw h) (by norm_num)
  have h2 : min (round2 raw) 500000 ≤ 500000 := min_le_right _ _
  by_cases hat : tt = "atm_withdrawal"
  · simp only [hat, if_true]
    have hmax : (10 : ℚ) ≤ max 10 (min ((pyRound (min (round2 raw) 500000 / 10) : ℚ) * 10) 500) :=
      le_max_left _ _
    have hmax2 : max 10 (min ((pyRound (min (round2 raw) 500000 / 10) : ℚ) * 10) 500) ≤ 500 :=
      max_le (by norm_num) (min_le_right _ _)
    rcases fz with _ | _ <;> simp only [Bool.false_eq_true, if_true, if_false]
    · split <;> rw [abs_le] <;> constructor <;> nlinarith
    · split <;> rw [abs_le] <;> constructor <;> nlinarith
  · simp only [hat, if_false]
    rcases fz with _ | _ <;> simp only [Bool.false_eq_true, if_true, if_false]
    · split <;> rw [abs_le] <;> constructor <;> nlinarith
    · split <;> rw [abs_le] <;> constructor <;> nlinarith

lemma txnAmount_atm (raw : ℚ) (h : 0 ≤ raw) (tt : String) (fz : Bool)
    (htt : tt = "atm_withdrawal") :
    txnAmount raw tt fz = 0 ∨
      ((∃ k : ℤ, txnAmount raw tt fz = 10 * k) ∧ 10 ≤ |txnAmount raw tt fz| ∧
        |txnAmount raw tt fz| ≤ 500) := by
  subst htt
  unfold txnAmount
  dsimp only
  rw [if_pos rfl,
    if_neg (show ¬("atm_withdrawal" = "salary" ∨ "atm_withdrawal" = "transfer_in" ∨
      "atm_withdrawal" = "interest") by decide)]
  rcases fz with _ | _
  · rw [if_neg (by decide : ¬((false : Bool) = true))]
    right
    set m := pyRound (min (round2 raw) 500000 / 10) with hm
    rcases le_or_lt m 1 with h1 | h1
    · have hc : (m : ℚ) ≤ 1 := by exact_mod_cast h1
      have hle : (m : ℚ) * 10 ≤ 500 := by nlinarith
      have h10 : (m : ℚ) * 10 ≤ 10 := by nlinarith
      rw [min_eq_left hle, max_eq_left h10]
      exact ⟨⟨-1, by norm_num⟩, by norm_num, by norm_num⟩
    · rcases le_or_lt m 50 with h5 | h5
      · have hc1 : (1 : ℚ) < (m : ℚ) := by exact_mod_cast h1
        have hc5 : (m : ℚ) ≤ 50 := by exact_mod_cast h5
        have hle : (m : ℚ) * 10 ≤ 500 := by nlinarith
        have h10 : (10 : ℚ) ≤ (m : ℚ) * 10 := by nlinarith
        rw [min_eq_left hle, max_eq_right h10]
        refine ⟨⟨-m, by push_cast; ring⟩, ?_, ?_⟩
        · rw [abs_neg, abs_of_nonneg (by nlinarith)]
          exact h10
        · rw [abs_neg, abs_of_nonneg (by nlinarith)]
          exact hle
      · have hc5 : (50 : ℚ) < (m : ℚ) := by exact_mod_cast h5
        have hle : (500 : ℚ) ≤ (m : ℚ) * 10 := by nlinarith
        rw [min_eq_right hle, max_eq_right (by norm_num : (10 : ℚ) ≤ 500)]
        exact ⟨⟨-50, by norm_num⟩, by norm_num, by norm_num⟩
  · rw [if_pos rfl]
    left
    norm_num

lemma txnStep_mem (ZT : Nat) (aid : ℤ) (isB : Bool) (td : String × ℤ)
    (st : TxSt) : ∀ r ∈ (txnStep ZT aid isB td st).1, r ∈ st.1 ∨ txnAmountOk r := by
  intro r hr
  rcases List.mem_append.mp hr with hmem | hmem
  · exact Or.inl hmem
  · right
    have he := List.mem_singleton.mp hmem
    rw [he]
    constructor
    · exact txnAmount_abs_le _ (st.2.2.logn st.2.2.pos).2 _ _
    · intro hat
      exact txnAmount_atm _ (st.2.2.logn st.2.2.pos).2 _ _ hat

lemma txnForAccount_mem (ZT AVG : Nat) (dates : List ℤ) (acct : ActiveAccount)
    (st : TxSt) :
    ∀ r ∈ (txnForAccount ZT AVG dates acct st).1, r ∈ st.1 ∨ txnAmountOk r := by
  intro r hr
  unfold txnForAccount at hr
  dsimp only at hr
  rw [apply_ite (fun s : TxSt => s.1)] at hr
  split at hr
  · exact Or.inl hr
  · rcases foldSteps_records_mem _ _
        (txnStep_mem ZT acct.account_id (orPersonal acct.cust_type == "business"))
        _ _ r hr with hmem | hmem
    · exact Or.inl hmem
    · exact Or.inr hmem

/-- C3 (amended): every transaction record has absolute amount at most
500000, and every atm_withdrawal record has an amount that is a multiple of
10 with absolute value in [10, 500] — or exactly 0 when the record was
selected for the zero-amount injection. -/
theorem c3_transaction_amounts (ZERO_AMOUNT_TXNS AVG : Nat)
    (dateStart dateEnd : ℤ) (accounts : List ActiveAccount) (rng : Rng) :
    ∀ r ∈ (generate_transactions ZERO_AMOUNT_TXNS AVG dateStart dateEnd
        accounts rng).1, txnAmountOk r := by
  intro r hr
  unfold generate_transactions at hr
  rcases foldSteps_records_mem _ _ (txnForAccount_mem ZERO_AMOUNT_TXNS AVG _)
      _ _ r hr with hmem | hmem
  · exact absurd hmem (List.not_mem_nil r)
  · exact hmem

/-- C3 counterexample: in a run where the zero-amount injection fires on an
atm_withdrawal transaction (one active current account, draws selecting the
ATM type and a sub-threshold uniform draw), the recorded ATM amount is 0,
not a multiple of 10 within [10, 500]: the claim as stated fails. -/
theorem c3_atm_zero_counterexample :
    ∃ r ∈ (generate_transactions 1 5 0 0 oneCurrentAccount rngZeroAtm).1,
      r.txn_type = "atm_withdrawal" ∧ r.amount = 0 ∧ ¬(10 ≤ |r.amount|) := by
  decide

/-- C3 witness: the amended amount property instantiated on the first
record of a concrete one-account run. -/
theorem c3_transaction_amounts_witness :
    txnAmountOk ((generate_transactions 1 5 0 0 oneCurrentAccount
      rngZeroAtm).1.head (by decide)) :=
  c3_transaction_amounts 1 5 0 0 oneCurrentAccount rngZeroAtm _ (List.head_mem _)

lemma sumDebit_append (b : String) (l1 l2 : List GLRecord) :
    sumDebit b (l1 ++ l2) = sumDebit b l1 + sumDebit b l2 := by
  simp [sumDebit, List.filter_append]

lemma sumCredit_append (b : String) (l1 l2 : List GLRecord) :
    sumCredit b (l1 ++ l2) = sumCredit b l1 + sumCredit b l2 := by
  simp [sumCredit, List.filter_append]

lemma sumDebit_pair (b : String) (d c : GLRecord) :
    sumDebit b [d, c] = (if d.batch_id = b then d.debit_amount else 0) +
      (if c.batch_id = b then c.debit_amount else 0) := by
  simp only [sumDebit, List.filter_cons, List.filter_nil, beq_iff_eq]
  split_ifs <;> simp

lemma sumCredit_pair (b : String) (d c : GLRecord) :
    sumCredit b [d, c] = (if d.batch_id = b then d.credit_amount else 0) +
      (if c.batch_id = b then c.credit_amount else 0) := by
  simp only [sumCredit, List.filter_cons, List.filter_nil, beq_iff_eq]
  split_ifs <;> simp

lemma glJournalStep_shape (cc_codes : List String) (dateN : Nat) (batch : String)
    (st : GLSt) :
    ∃ a d c, (glJournalStep cc_codes dateN batch st).1 = st.1 ++ [d, c] ∧
      (glJournalStep cc_codes dateN batch st).2.1 = st.2.1 + 1 ∧
      d.batch_id = batch ∧ c.batch_id = batch ∧
      d.journal_id = st.2.1 + 1 ∧ c.journal_id = st.2.1 + 1 ∧
      d.debit_amount = a ∧ d.credit_amount = 0 ∧
      c.debit_amount = 0 ∧ c.credit_amount = a ∧
      d.is_manual = false ∧ c.is_manual = false :=
  ⟨_, _, _, rfl, rfl, rfl, rfl, rfl, rfl, rfl, rfl, rfl, rfl, rfl, rfl⟩

lemma glJournalStep_inv (cc_codes : List String) (dateN : Nat) (batch : String)
    (st : GLSt) (h : glInv st) : glInv (glJournalStep cc_codes dateN batch st) := by
  obtain ⟨hB, hJ, hP, hM⟩ := h
  obtain ⟨a, d, c, hrecs, hctr, hdb, hcb, hdj, hcj, hdd, hdc, hcd, hcc, hdm, hcm⟩ :=
    glJournalStep_shape cc_codes dateN batch st
  refine ⟨?_, ?_, ?_, ?_⟩
  · intro b
    rw [hrecs, sumDebit_append, sumCredit_append, hB b, sumDebit_pair,
      sumCredit_pair, hdb, hcb, hdd, hdc, hcd, hcc]
    split_ifs <;> ring
  · intro r hr
    rw [hctr]
    rw [hrecs] at hr
    rcases List.mem_append.mp hr with hm | hm
    · exact le_trans (hJ r hm) (by omega)
    · rcases List.mem_pair.mp hm with he | he
      · rw [he, hdj]
      · rw [he, hcj]
  · intro j
    rw [hrecs, List.filter_append]
    by_cases hj : j = st.2.1 + 1
    · have h0 : st.1.filter (fun r => r.journal_id == j) = [] := by
        rw [List.filter_eq_nil_iff]
        intro r hr
        have := hJ r hr
        simp only [beq_iff_eq]
        omega
      have h2 : [d, c].filter (fun r => r.journal_id == j) = [d, c] := by
        simp [List.filter, hdj, hcj, hj]
      rw [h0, h2, List.nil_append]
      exact Or.inr ⟨d, c, rfl, by rw [hdj, hj], by rw [hcj, hj],
        by rw [hdb, hcb], by rw [hdd, hcc], hdc, hcd⟩
    · have h2 : [d, c].filter (fun r => r.journal_id == j) = [] := by
        have hne : ¬((st.2.1 + 1 == j) = true) := by
          simp only [beq_iff_eq]
          omega
        simp only [List.filter_cons, List.filter_nil, hdj, hcj, if_neg hne]
      rw [h2, List.append_nil]
      exact hP j
  · intro r hr
    rw [hrecs] at hr
    rcases List.mem_append.mp hr with hm | hm
    · exact hM r hm
    · rcases List.mem_pair.mp hm with he | he
      · rw [he]
        exact hdm
      · rw [he]
        exact hcm

lemma iterSteps_inv {σ : Type} (f : σ → σ) (Inv : σ → Prop)
    (hf : ∀ st, Inv st → Inv (f st)) :
    ∀ (n : Nat) (st : σ), Inv st → Inv (iterSteps f n st) := by
  intro n
  induction n with
  | zero => exact fun st h => h
  | succ n ih => exact fun st h => ih (f st) (hf st h)

lemma glDayStep_inv (cc_codes : List String) (off : Nat) (st : GLSt)
    (h : glInv st) : glInv (glDayStep cc_codes off st) := by
  unfold glDayStep
  dsimp only
  refine iterSteps_inv _ glInv
    (glJournalStep_inv cc_codes (glDate off) (dailyBatchId off)) _ _ ?_
  exact h

lemma glDaysLoop_inv (cc_codes : List String) (rng : Rng) :
    glInv (foldSteps (glDayStep cc_codes) (List.range 184) ([], 0, rng)) := by
  refine foldSteps_inv _ glInv (glDayStep_inv cc_codes) _ _ ?_
  refine ⟨fun b => rfl, fun r hr => absurd hr (List.not_mem_nil r),
    fun j => Or.inl rfl, fun r hr => absurd hr (List.not_mem_nil r)⟩

/-- C2: every journal of the daily GL loop is exactly one debit leg and one
credit leg sharing journal id and batch id with equal amounts, so every
batch other than the injected imbalance batch has equal debit and credit
sums (difference 0, hence within 0.01); the imbalance batch alone is off,
by exactly the injected delta of 500. -/
theorem c2_gl_balance (GL_IMBALANCE_BATCH : String)
    (gl_codes cc_codes : List String) (rng : Rng) :
    (∀ b, b ≠ GL_IMBALANCE_BATCH →
      sumDebit b (generate_gl_entries GL_IMBALANCE_BATCH gl_codes cc_codes rng).1 =
        sumCredit b (generate_gl_entries GL_IMBALANCE_BATCH gl_codes cc_codes rng).1 ∧
      |sumDebit b (generate_gl_entries GL_IMBALANCE_BATCH gl_codes cc_codes rng).1 -
        sumCredit b (generate_gl_entries GL_IMBALANCE_BATCH gl_codes cc_codes rng).1| ≤
          1 / 100) ∧
    sumDebit GL_IMBALANCE_BATCH
        (generate_gl_entries GL_IMBALANCE_BATCH gl_codes cc_codes rng).1 -
      sumCredit GL_IMBALANCE_BATCH
        (generate_gl_entries GL_IMBALANCE_BATCH gl_codes cc_codes rng).1 = 500 ∧
    (∀ j, balancedPair j
      ((generate_gl_entries GL_IMBALANCE_BATCH gl_codes cc_codes rng).1.filter
        (fun r => !r.is_manual && r.journal_id == j))) := by
  obtain ⟨hB, hJ, hP, hM⟩ := glDaysLoop_inv cc_codes rng
  have hout : (generate_gl_entries GL_IMBALANCE_BATCH gl_codes cc_codes rng).1 =
      (foldSteps (glDayStep cc_codes) (List.range 184) ([], 0, rng)).1 ++
        [imbalanceDebit
          ((foldSteps (glDayStep cc_codes) (List.range 184) ([], 0, rng)).2.1 + 1)
          GL_IMBALANCE_BATCH,
         imbalanceCredit
          ((foldSteps (glDayStep cc_codes) (List.range 184) ([], 0, rng)).2.1 + 2)
          GL_IMBALANCE_BATCH] := rfl
  refine ⟨?_, ?_, ?_⟩
  · intro b hb
    have hd : sumDebit b (generate_gl_entries GL_IMBALANCE_BATCH gl_codes cc_codes rng).1 =
        sumCredit b (generate_gl_entries GL_IMBALANCE_BATCH gl_codes cc_codes rng).1 := by
      rw [hout, sumDebit_append, sumCredit_append, sumDebit_pair, sumCredit_pair,
        hB b]
      simp only [imbalanceDebit, imbalanceCredit]
      simp only [if_neg (Ne.symm hb)]
    exact ⟨hd, by rw [hd]; simp⟩
  · rw [hout, sumDebit_append, sumCredit_append, sumDebit_pair, sumCredit_pair,
      hB GL_IMBALANCE_BATCH]
    simp only [imbalanceDebit, imbalanceCredit, if_pos]
    ring
  · intro j
    rw [hout, List.filter_append]
    have h1 : [imbalanceDebit
          ((foldSteps (glDayStep cc_codes) (List.range 184) ([], 0, rng)).2.1 + 1)
          GL_IMBALANCE_BATCH,
        imbalanceCredit
          ((foldSteps (glDayStep cc_codes) (List.range 184) ([], 0, rng)).2.1 + 2)
          GL_IMBALANCE_BATCH].filter (fun r => !r.is_manual && r.journal_id == j) = [] := by
      simp [imbalanceDebit, imbalanceCredit, List.filter_cons]
    rw [h1, List.append_nil]
    have h2 : (foldSteps (glDayStep cc_codes) (List.range 184) ([], 0, rng)).1.filter
          (fun r => !r.is_manual && r.journal_id == j) =
        (foldSteps (glDayStep cc_codes) (List.range 184) ([], 0, rng)).1.filter
          (fun r => r.journal_id == j) := by
      refine List.filter_congr ?_
      intro r hr
      rw [hM r hr]
      simp
    rw [h2]
    exact hP j

/-- C2 witness: on a concrete run, a daily batch balances exactly and the
imbalance batch is off by 500. -/
theorem c2_gl_balance_witness :
    sumDebit "BATCH-20240701"
        (generate_gl_entries "BATCH-MANUAL" [] ["CC-FIN"] rngA).1 =
      sumCredit "BATCH-20240701"
        (generate_gl_entries "BATCH-MANUAL" [] ["CC-FIN"] rngA).1 ∧
    sumDebit "BATCH-MANUAL"
        (generate_gl_entries "BATCH-MANUAL" [] ["CC-FIN"] rngA).1 -
      sumCredit "BATCH-MANUAL"
        (generate_gl_entries "BATCH-MANUAL" [] ["CC-FIN"] rngA).1 = 500 :=
  ⟨((c2_gl_balance "BATCH-MANUAL" [] ["CC-FIN"] rngA).1 "BATCH-20240701"
      (by decide)).1,
   (c2_gl_balance "BATCH-MANUAL" [] ["CC-FIN"] rngA).2.1⟩

lemma le_foldl_max_init (l : List ℤ) : ∀ b : ℤ, b ≤ l.foldl max b := by
  induction l with
  | nil => exact fun b => le_refl b
  | cons c l ih => exact fun b => le_trans (le_max_left b c) (ih (max b c))

lemma mem_le_foldl_max (l : List ℤ) : ∀ (b a : ℤ), a ∈ l → a ≤ l.foldl max b := by
  induction l with
  | nil => exact fun b a h => absurd h (List.not_mem_nil a)
  | cons c l ih =>
    intro b a h
    rcases List.mem_cons.mp h with he | hm
    · subst he
      exact le_trans (le_max_right b a) (le_foldl_max_init l (max b a))
    · exact ih (max b c) a hm

lemma mem_le_npMax (a : ℤ) (l : List ℤ) (h : a ∈ l) : a ≤ npMax l := by
  cases l with
  | nil => exact absurd h (List.not_mem_nil a)
  | cons x xs =>
    rcases List.mem_cons.mp h with he | hm
    · subst he
      exact le_foldl_max_init xs a
    · exact mem_le_foldl_max xs x a hm

lemma appendsCid_bind (cid : ℤ) (f g : GenSt → Option GenSt)
    (hf : AppendsCid cid f) (hg : AppendsCid cid g) :
    AppendsCid cid (fun st => (f st).bind g) := by
  intro st st' h
  change (f st).bind g = some st' at h
  cases hfe : f st with
  | none =>
    rw [hfe] at h
    simp at h
  | some st1 =>
    rw [hfe] at h
    simp only [Option.some_bind] at h
    obtain ⟨ex1, he1, hp1⟩ := hf st st1 hfe
    obtain ⟨ex2, he2, hp2⟩ := hg st1 st' h
    refine ⟨ex1 ++ ex2, by rw [he2, he1, List.append_assoc], ?_⟩
    intro r hr
    rcases List.mem_append.mp hr with hm | hm
    · exact hp1 r hm
    · exact hp2 r hm

lemma pCurrent_appends (AAR : ℚ) (pbc : String → List ℤ) (fuel : Nat)
    (cid base : ℤ) : AppendsCid cid (pCurrent AAR pbc fuel cid base) := by
  intro st st' h
  unfold pCurrent at h
  cases hm : make_unique_account fuel st.2.1 st.2.2 with
  | none =>
    rw [hm] at h
    simp at h
  | some v =>
    obtain ⟨⟨an, sc⟩, used1, rng1⟩ := v
    rw [hm] at h
    obtain he := Option.some.inj h
    subst he
    refine ⟨_, rfl, ?_⟩
    intro r hr
    have he2 : r = _ := List.mem_singleton.mp hr
    subst he2
    rfl

lemma pSavings_appends (pbc : String → List ℤ) (fuel : Nat) (cid base : ℤ) :
    AppendsCid cid (pSavings pbc fuel cid base) := by
  intro st st' h
  unfold pSavings at h
  simp only [Rng.random] at h
  split at h
  · cases hm : make_unique_account fuel st.2.1 st.2.2.bump with
    | none =>
      rw [hm] at h
      simp at h
    | some v =>
      obtain ⟨⟨an, sc⟩, used1, rng1⟩ := v
      rw [hm] at h
      obtain he := Option.some.inj h
      subst he
      refine ⟨_, rfl, ?_⟩
      intro r hr
      have he2 : r = _ := List.mem_singleton.mp hr
      subst he2
      rfl
  · obtain he := Option.some.inj h
    subst he
    exact ⟨[], (List.append_nil st.1).symm, fun r hr => absurd hr (List.not_mem_nil r)⟩

lemma pLoan_appends (ARR : ℚ) (pbc : String → List ℤ) (fuel : Nat)
    (cid base : ℤ) : AppendsCid cid (pLoan ARR pbc fuel cid base) := by
  intro st st' h
  unfold pLoan at h
  simp only [Rng.random] at h
  split at h
  · cases hm : make_unique_account fuel st.2.1 st.2.2.bump with
    | none =>
      rw [hm] at h
      simp at h
    | some v =>
      obtain ⟨⟨an, sc⟩, used1, rng1⟩ := v
      rw [hm] at h
      obtain he := Option.some.inj h
      subst he
      refine ⟨_, rfl, ?_⟩
      intro r hr
      have he2 : r = _ := List.mem_singleton.mp hr
      subst he2
      rfl
  · obtain he := Option.some.inj h
    subst he
    exact ⟨[], (List.append_nil st.1).symm, fun r hr => absurd hr (List.not_mem_nil r)⟩

lemma pCard_appends (pbc : String → List ℤ) (fuel : Nat) (cid base : ℤ) :
    AppendsCid cid (pCard pbc fuel cid base) := by
  intro st st' h
  unfold pCard at h
  simp only [Rng.random] at h
  split at h
  · cases hm : make_unique_account fuel st.2.1 st.2.2.bump with
    | none =>
      rw [hm] at h
      simp at h
    | some v =>
      obtain ⟨⟨an, sc⟩, used1, rng1⟩ := v
      rw [hm] at h
      obtain he := Option.some.inj h
      subst he
      refine ⟨_, rfl, ?_⟩
      intro r hr
      have he2 : r = _ := List.mem_singleton.mp hr
      subst he2
      rfl
  · obtain he := Option.some.inj h
    subst he
    exact ⟨[], (List.append_nil st.1).symm, fun r hr => absurd hr (List.not_mem_nil r)⟩

lemma bCurrent_appends (pbc : String → List ℤ) (fuel : Nat) (cid base : ℤ) :
    AppendsCid cid (bCurrent pbc fuel cid base) := by
  intro st st' h
  unfold bCurrent at h
  cases hm : make_unique_account fuel st.2.1 st.2.2 with
  | none =>
    rw [hm] at h
    simp at h
  | some v =>
    obtain ⟨⟨an, sc⟩, used1, rng1⟩ := v
    rw [hm] at h
    obtain he := Option.some.inj h
    subst he
    refine ⟨_, rfl, ?_⟩
    intro r hr
    have he2 : r = _ := List.mem_singleton.mp hr
    subst he2
    rfl

lemma bSavings_appends (pbc : String → List ℤ) (fuel : Nat) (cid base : ℤ) :
    AppendsCid cid (bSavings pbc fuel cid base) := by
  intro st st' h
  unfold bSavings at h
  simp only [Rng.random] at h
  split at h
  · cases hm : make_unique_account fuel st.2.1 st.2.2.bump with
    | none =>
      rw [hm] at h
      simp at h
    | some v =>
      obtain ⟨⟨an, sc⟩, used1, rng1⟩ := v
      rw [hm] at h
      obtain he := Option.some.inj h
      subst he
      refine ⟨_, rfl, ?_⟩
      intro r hr
      have he2 : r = _ := List.mem_singleton.mp hr
      subst he2
      rfl
  · obtain he := Option.some.inj h
    subst he
    exact ⟨[], (List.append_nil st.1).symm, fun r hr => absurd hr (List.not_mem_nil r)⟩

lemma bLoan_appends (ARR : ℚ) (pbc : String → List ℤ) (fuel : Nat)
    (cid base : ℤ) : AppendsCid cid (bLoan ARR pbc fuel cid base) := by
  intro st st' h
  unfold bLoan at h
  simp only [Rng.random] at h
  split at h
  · cases hm : make_unique_account fuel st.2.1 st.2.2.bump with
    | none =>
      rw [hm] at h
      simp at h
    | some v =>
      obtain ⟨⟨an, sc⟩, used1, rng1⟩ := v
      rw [hm] at h
      obtain he := Option.some.inj h
      subst he
      refine ⟨_, rfl, ?_⟩
      intro r hr
      have he2 : r = _ := List.mem_singleton.mp hr
      subst he2
      rfl
  · obtain he := Option.some.inj h
    subst he
    exact ⟨[], (List.append_nil st.1).symm, fun r hr => absurd hr (List.not_mem_nil r)⟩

lemma personalAccounts_appends (AAR ARR : ℚ) (pbc : String → List ℤ)
    (fuel : Nat) (cid : ℤ) : AppendsCid cid (personalAccounts AAR ARR pbc fuel cid) := by
  intro st st' h
  unfold personalAccounts at h
  simp only [Rng.integers] at h
  obtain ⟨ex, he, hp⟩ :=
    appendsCid_bind cid _ _ (pCurrent_appends AAR pbc fuel cid _)
      (appendsCid_bind cid _ _ (pSavings_appends pbc fuel cid _)
        (appendsCid_bind cid _ _ (pLoan_appends ARR pbc fuel cid _)
          (pCard_appends pbc fuel cid _))) _ st' h
  exact ⟨ex, he, hp⟩

lemma businessAccounts_appends (ARR : ℚ) (pbc : String → List ℤ)
    (fuel : Nat) (cid : ℤ) : AppendsCid cid (businessAccounts ARR pbc fuel cid) := by
  intro st st' h
  unfold businessAccounts at h
  simp only [Rng.integers] at h
  obtain ⟨ex, he, hp⟩ :=
    appendsCid_bind cid _ _ (bCurrent_appends pbc fuel cid _)
      (appendsCid_bind cid _ _ (bSavings_appends pbc fuel cid _)
        (bLoan_appends ARR pbc fuel cid _)) _ st' h
  exact ⟨ex, he, hp⟩

lemma foldStepsOpt_records {α : Type} (f : α → GenSt → Option GenSt)
    (P : α → AccountRecord → Prop)
    (hf : ∀ a st st', f a st = some st' →
      ∃ ex, st'.1 = st.1 ++ ex ∧ ∀ r ∈ ex, P a r) :
    ∀ (l : List α) (st st' : GenSt), foldStepsOpt f l st = some st' →
      ∃ ex, st'.1 = st.1 ++ ex ∧ ∀ r ∈ ex, ∃ a ∈ l, P a r := by
  intro l
  induction l with
  | nil =>
    intro st st' h
    obtain he := Option.some.inj h
    subst he
    exact ⟨[], (List.append_nil st.1).symm, fun r hr => absurd hr (List.not_mem_nil r)⟩
  | cons a l ih =>
    intro st st' h
    change (f a st).bind (foldStepsOpt f l) = some st' at h
    cases hfa : f a st with
    | none =>
      rw [hfa] at h
      simp at h
    | some st1 =>
      rw [hfa] at h
      change foldStepsOpt f l st1 = some st' at h
      obtain ⟨ex1, he1, hp1⟩ := hf a st st1 hfa
      obtain ⟨ex2, he2, hp2⟩ := ih st1 st' h
      refine ⟨ex1 ++ ex2, by rw [he2, he1, List.append_assoc], ?_⟩
      intro r hr
      rcases List.mem_append.mp hr with hm | hm
      · exact ⟨a, List.mem_cons_self a l, hp1 r hm⟩
      · obtain ⟨a2, ha2, hp⟩ := hp2 r hm
        exact ⟨a2, List.mem_cons_of_mem a ha2, hp⟩

lemma orphanStep_appends (pbc : String → List ℤ) (fuel : Nat) (maxCid : ℤ)
    (i : Nat) : ∀ st st', orphanStep pbc fuel maxCid i st = some st' →
      ∃ ex, st'.1 = st.1 ++ ex ∧
        ex.map (·.customer_id) = [maxCid + 1000 + (i : ℤ)] := by
  intro st st' h
  unfold orphanStep at h
  cases hm : make_unique_account fuel st.2.1 st.2.2 with
  | none =>
    rw [hm] at h
    simp at h
  | some v =>
    obtain ⟨⟨an, sc⟩, used1, rng1⟩ := v
    rw [hm] at h
    obtain he := Option.some.inj h
    subst he
    exact ⟨_, rfl, rfl⟩

lemma orphanLoop_records (pbc : String → List ℤ) (fuel : Nat) (maxCid : ℤ) :
    ∀ (l : List Nat) (st st' : GenSt),
      foldStepsOpt (orphanStep pbc fuel maxCid) l st = some st' →
      ∃ ex, st'.1 = st.1 ++ ex ∧
        ex.map (·.customer_id) = l.map (fun i : Nat => maxCid + 1000 + (i : ℤ)) := by
  intro l
  induction l with
  | nil =>
    intro st st' h
    obtain he := Option.some.inj h
    subst he
    exact ⟨[], (List.append_nil st.1).symm, rfl⟩
  | cons i l ih =>
    intro st st' h
    change (orphanStep pbc fuel maxCid i st).bind
      (foldStepsOpt (orphanStep pbc fuel maxCid) l) = some st' at h
    cases hfa : orphanStep pbc fuel maxCid i st with
    | none =>
      rw [hfa] at h
      simp at h
    | some st1 =>
      rw [hfa] at h
      change foldStepsOpt (orphanStep pbc fuel maxCid) l st1 = some st' at h
      obtain ⟨ex1, he1, hm1⟩ := orphanStep_appends pbc fuel maxCid i st st1 hfa
      obtain ⟨ex2, he2, hm2⟩ := ih st1 st' h
      refine ⟨ex1 ++ ex2, by rw [he2, he1, List.append_assoc], ?_⟩
      rw [List.map_append, hm1, hm2]
      rfl

/-- C1: in every successful accounts-stage run the dangling records (whose
customer_id resolves to no customer id) are exactly the ORPHANED_ACCOUNTS
orphan records, carrying customer ids max_customer_id + 1000 + i for
i = 0..ORPHANED_ACCOUNTS-1 in order; every other record references a
personal or business customer id. -/
theorem c1_orphaned_accounts (AAR ARR : ℚ) (ORPHANED_ACCOUNTS : Nat)
    (personal_ids business_ids : List ℤ) (pbc : String → List ℤ) (fuel : Nat)
    (rng : Rng) (hp : personal_ids ≠ []) (hb : business_ids ≠ []) :
    ∀ recs used rng', generate_accounts AAR ARR ORPHANED_ACCOUNTS personal_ids
        business_ids pbc fuel rng = some (recs, used, rng') →
      ((recs.filter
          (fun r => decide (r.customer_id ∉ personal_ids ++ business_ids))).map
            (·.customer_id) =
        (List.range ORPHANED_ACCOUNTS).map
          (fun i : Nat => max (npMax personal_ids) (npMax business_ids) + 1000 + (i : ℤ))) ∧
      (recs.filter
        (fun r => decide (r.customer_id ∉ personal_ids ++ business_ids))).length =
          ORPHANED_ACCOUNTS ∧
      ∀ r ∈ recs, r.customer_id ∉ personal_ids ++ business_ids →
        ∃ i, i < ORPHANED_ACCOUNTS ∧
          r.customer_id = max (npMax personal_ids) (npMax business_ids) + 1000 + (i : ℤ) := by
  intro recs used rng' h
  unfold generate_accounts at h
  cases h1 : foldStepsOpt (personalAccounts AAR ARR pbc fuel) personal_ids
      ([], [], rng) with
  | none =>
    rw [h1] at h
    simp at h
  | some st1 =>
    rw [h1] at h
    simp only [Option.bind_eq_bind, Option.some_bind] at h
    cases h2 : foldStepsOpt (businessAccounts ARR pbc fuel) business_ids st1 with
    | none =>
      rw [h2] at h
      simp at h
    | some st2 =>
      rw [h2] at h
      simp only [Option.bind_eq_bind, Option.some_bind] at h
      obtain ⟨exP, heP, hpP⟩ := foldStepsOpt_records _
        (fun cid r => r.customer_id = cid)
        (personalAccounts_appends AAR ARR pbc fuel) personal_ids _ _ h1
      obtain ⟨exB, heB, hpB⟩ := foldStepsOpt_records _
        (fun cid r => r.customer_id = cid)
        (businessAccounts_appends ARR pbc fuel) business_ids st1 st2 h2
      obtain ⟨exO, heO, hmO⟩ := orphanLoop_records pbc fuel
        (max (npMax personal_ids) (npMax business_ids))
        (List.range ORPHANED_ACCOUNTS) st2 _ h
      have hrecs : recs = (([] ++ exP) ++ exB) ++ exO := by
        have h3 : recs = st2.1 ++ exO := heO
        rw [h3, heB, heP]
      have hPmem : ∀ r ∈ exP, r.customer_id ∈ personal_ids ++ business_ids := by
        intro r hr
        obtain ⟨a, ha, he⟩ := hpP r hr
        exact List.mem_append.mpr (Or.inl (he ▸ ha))
      have hBmem : ∀ r ∈ exB, r.customer_id ∈ personal_ids ++ business_ids := by
        intro r hr
        obtain ⟨a, ha, he⟩ := hpB r hr
        exact List.mem_append.mpr (Or.inr (he ▸ ha))
      have hOcid : ∀ r ∈ exO, ∃ i, i < ORPHANED_ACCOUNTS ∧
          r.customer_id = max (npMax personal_ids) (npMax business_ids) + 1000 + (i : ℤ) := by
        intro r hr
        have hmm : r.customer_id ∈ exO.map (·.customer_id) :=
          List.mem_map_of_mem _ hr
        rw [hmO] at hmm
        obtain ⟨i, hi, he⟩ := List.mem_map.mp hmm
        exact ⟨i, List.mem_range.mp hi, he.symm⟩
      have hOnot : ∀ r ∈ exO, r.customer_id ∉ personal_ids ++ business_ids := by
        intro r hr hmem
        obtain ⟨i, hi, he⟩ := hOcid r hr
        rcases List.mem_append.mp hmem with hm | hm
        · have hle : r.customer_id ≤ max (npMax personal_ids) (npMax business_ids) :=
            le_trans (mem_le_npMax _ _ hm) (le_max_left _ _)
          omega
        · have hle : r.customer_id ≤ max (npMax personal_ids) (npMax business_ids) :=
            le_trans (mem_le_npMax _ _ hm) (le_max_right _ _)
          omega
      have hfP : exP.filter
          (fun r => decide (r.customer_id ∉ personal_ids ++ business_ids)) = [] := by
        rw [List.filter_eq_nil_iff]
        intro r hr
        simp only [decide_eq_true_eq, Decidable.not_not]
        exact hPmem r hr
      have hfB : exB.filter
          (fun r => decide (r.customer_id ∉ personal_ids ++ business_ids)) = [] := by
        rw [List.filter_eq_nil_iff]
        intro r hr
        simp only [decide_eq_true_eq, Decidable.not_not]
        exact hBmem r hr
      have hfO : exO.filter
          (fun r => decide (r.customer_id ∉ personal_ids ++ business_ids)) = exO := by
        rw [List.filter_eq_self]
        intro r hr
        simp only [decide_eq_true_eq]
        exact hOnot r hr
      have hmain : (recs.filter
          (fun r => decide (r.customer_id ∉ personal_ids ++ business_ids))).map
            (·.customer_id) =
          (List.range ORPHANED_ACCOUNTS).map
            (fun i : Nat => max (npMax personal_ids) (npMax business_ids) + 1000 + (i : ℤ)) := by
        rw [hrecs, List.filter_append, List.filter_append, List.filter_append,
          List.filter_nil, hfP, hfB, hfO]
        simp only [List.nil_append]
        exact hmO
      refine ⟨hmain, ?_, ?_⟩
      · have hlen := congrArg List.length hmain
        rw [List.length_map, List.length_map, List.length_range] at hlen
        exact hlen
      · intro r hr hnot
        rw [hrecs] at hr
        rcases List.mem_append.mp hr with hr1 | hrO
        · rcases List.mem_append.mp hr1 with hr2 | hrB
          · rcases List.mem_append.mp hr2 with hr3 | hrP
            · exact absurd hr3 (List.not_mem_nil r)
            · exact absurd (hPmem r hrP) hnot
          · exact absurd (hBmem r hrB) hnot
        · exact hOcid r hrO

/-- C1 witness: a concrete successful two-customer run with one orphan,
whose only dangling record carries customer id max + 1000. -/
theorem c1_orphaned_accounts_witness :
    ((((generate_accounts 1 (1 / 2) 1 [1] [2] pbc0 2 rngA).get (by decide)).1.filter
        (fun r => decide (r.customer_id ∉ ([1] : List ℤ) ++ [2]))).map
          (·.customer_id) =
      (List.range 1).map (fun i : Nat => max (npMax [1]) (npMax [2]) + 1000 + (i : ℤ))) ∧
    (((generate_accounts 1 (1 / 2) 1 [1] [2] pbc0 2 rngA).get (by decide)).1.filter
        (fun r => decide (r.customer_id ∉ ([1] : List ℤ) ++ [2]))).length = 1 := by
  obtain ⟨h1, h2, h3⟩ := c1_orphaned_accounts 1 (1 / 2) 1 [1] [2] pbc0 2 rngA
    (by decide) (by decide) _ _ _ (Option.some_get (by decide)).symm
  exact ⟨h1, h2⟩
